import Mathlib

/-!
# Verification of the sim65 6502 emulator core

A shallow embedding, in Lean 4, of the sim65 emulator's core C modules:
the RAM module (`memory.c`), the TIA video chip (`src/tia.c`), the ACIA
serial adapter (`acia.c`), the VIA parallel/serial adapter (`src/via.c`),
the address-decoding bus (`src/bus.c`) and the 6502 CPU core
(`src/cpu.c`).  C `uint8_t`/`uint16_t` values are modelled as `Nat` with
explicit reductions modulo 256 / 65536 wherever the C types wrap, and
signed C arithmetic is modelled through `Int`.  Byte stores are modelled
as total functions `Nat → Nat`.  Output side effects (`fputc`,
`putchar`) are modelled by accumulating the emitted bytes in a list held
in the device state.  Wall-clock pacing (`clock.c`) has no effect on any
machine-visible state and is not modelled.
-/

namespace Sim65

/-- Truncation to an unsigned 8-bit value, as performed by a C cast or
assignment to `uint8_t`. -/
def u8 (n : Nat) : Nat := n % 256

/-- Truncation to an unsigned 16-bit value, as performed by a C cast or
assignment to `uint16_t`. -/
def u16 (n : Nat) : Nat := n % 65536

/-- Wrap a signed intermediate value into an unsigned 16-bit value, the
effect of casting an `int` expression to `uint16_t` in C. -/
def i16wrap (z : Int) : Nat := (z % 65536).toNat

/-- Wrap a signed intermediate value into an unsigned 8-bit value, the
effect of casting an `int` expression to `uint8_t` in C. -/
def i8wrap (z : Int) : Nat := (z % 256).toNat

/-- Reinterpret an 8-bit value as a signed `int8_t`, as a C cast does. -/
def sext8 (n : Nat) : Int := if n % 256 ≥ 128 then (n % 256 : Int) - 256 else (n % 256 : Int)

/-- Sign-extend the low 4 bits of a byte: the C idiom
`(int8_t)(r << 4) >> 4` used for the TIA HMPx motion nibbles. -/
def sext4 (n : Nat) : Int := if n % 16 ≥ 8 then (n % 16 : Int) - 16 else (n % 16 : Int)

/-! ## RAM (`memory.c`) -/

/-- `memory_t`: a byte store with a configured size.  The `data` array is
modelled as a total function on addresses. -/
structure Mem where
  data : Nat → Nat
  size : Nat

/-- `memory_read`: returns 0 outside the configured size. -/
def memory_read (memory : Mem) (address : Nat) : Nat :=
  if address < memory.size then memory.data address else 0

/-- `memory_write`: stores within the configured size, otherwise no-op.
The `uint8_t value` parameter truncates the incoming value. -/
def memory_write (memory : Mem) (address value : Nat) : Mem :=
  if address < memory.size then
    { memory with data := Function.update memory.data address (u8 value) }
  else memory

/-! ## TIA (`src/tia.c`, `tia.h`)

The build uses the default `TV_SYSTEM_NTSC`, fixing
`TIA_CYCLES_PER_SCANLINE = 228` and `TIA_SCANLINES_PER_FRAME = 262` at
compile time. -/

def TIA_END_ADDRESS : Nat := 0x003F
def TIA_CYCLES_PER_SCANLINE : Nat := 228
def TIA_SCANLINES_PER_FRAME : Nat := 262
def TIA_SCREEN_WIDTH : Nat := 160
def TIA_SCREEN_HEIGHT : Nat := 192
def CTRLPF_REFLECT_BIT : Nat := 1
def CTRLPF_SCORE_BIT : Nat := 2

def TIA_REG_VSYNC : Nat := 0x00
def TIA_REG_VBLANK : Nat := 0x01
def TIA_REG_RSYNC : Nat := 0x03
def TIA_REG_COLUP0 : Nat := 0x06
def TIA_REG_COLUP1 : Nat := 0x07
def TIA_REG_COLUPF : Nat := 0x08
def TIA_REG_COLUBK : Nat := 0x09
def TIA_REG_CTRLPF : Nat := 0x0A
def TIA_REG_PF0 : Nat := 0x0D
def TIA_REG_PF1 : Nat := 0x0E
def TIA_REG_PF2 : Nat := 0x0F
def TIA_REG_RESP0 : Nat := 0x10
def TIA_REG_RESP1 : Nat := 0x11
def TIA_REG_AUDC0 : Nat := 0x17
def TIA_REG_AUDC1 : Nat := 0x18
def TIA_REG_AUDF0 : Nat := 0x19
def TIA_REG_AUDF1 : Nat := 0x1A
def TIA_REG_AUDV0 : Nat := 0x1B
def TIA_REG_AUDV1 : Nat := 0x1C
def TIA_REG_GRP0 : Nat := 0x1D
def TIA_REG_GRP1 : Nat := 0x1E
def TIA_REG_HMP0 : Nat := 0x24
def TIA_REG_HMP1 : Nat := 0x25
def TIA_REG_HMOVE : Nat := 0x2D

/-- `TIA_AudioChannel` (the `float` phase/freq fields drive only the
audio stub and are not modelled). -/
structure AudioChannel where
  AUDC : Nat
  AUDF : Nat
  AUDV : Nat

/-- `TIA_Collisions`. -/
structure Collisions where
  p0_p1 : Bool
  p0_pf : Bool
  p1_pf : Bool
  m0_p1 : Bool

/-- The `TIA` device structure.  `framebuffer` is indexed `[y][x]`. -/
structure TIA where
  registers : Nat → Nat
  framebuffer : Nat → Nat → Nat
  tv_system : Nat
  color_clock : Nat
  scanline : Nat
  vsync : Bool
  vblank : Bool
  frame_count : Nat
  collisions : Collisions
  p0_x : Nat
  p1_x : Nat
  grp0 : Nat
  grp1 : Nat
  pf0 : Nat
  pf1 : Nat
  pf2 : Nat
  ctrlpf : Nat
  colup0 : Nat
  colup1 : Nat
  colupf : Nat
  colubk : Nat
  audio0 : AudioChannel
  audio1 : AudioChannel
  frame_done : Bool

/-- `tia_init`: the `calloc`-zeroed TIA with the given TV system. -/
def tia_init (tv_system : Nat) : TIA :=
  { registers := fun _ => 0
    framebuffer := fun _ _ => 0
    tv_system := tv_system
    color_clock := 0
    scanline := 0
    vsync := false
    vblank := false
    frame_count := 0
    collisions := ⟨false, false, false, false⟩
    p0_x := 0
    p1_x := 0
    grp0 := 0
    grp1 := 0
    pf0 := 0
    pf1 := 0
    pf2 := 0
    ctrlpf := 0
    colup0 := 0
    colup1 := 0
    colupf := 0
    colubk := 0
    audio0 := ⟨0, 0, 0⟩
    audio1 := ⟨0, 0, 0⟩
    frame_done := false }

/-- `tia_read`: mirror the address into 0..63 and return the register. -/
def tia_read (tia : TIA) (address : Nat) : Nat :=
  tia.registers (u16 address &&& 0x3F)

/-- The two stub colour lookup tables (`tia_color_lut_ntsc/pal`): a
static array whose entry 0 is given and whose other entries are
zero-initialized. -/
def tia_color_lut_ntsc (i : Nat) : Nat := if i = 0 then 0xFF0000FF else 0

def tia_color_lut_pal (i : Nat) : Nat := if i = 0 then 0x00FF00FF else 0

/-- `tia_color_to_rgba`. -/
def tia_color_to_rgba (tia : TIA) (color_code : Nat) : Nat :=
  let color_code := color_code &&& 0x7F
  if tia.tv_system = 0 then tia_color_lut_ntsc color_code
  else tia_color_lut_pal color_code

/-- `hmove_objects`: shift the player positions by the sign-extended
HMPx nibbles, modulo the screen width. -/
def hmove_objects (tia : TIA) : TIA :=
  let shift_p0 := sext4 (tia.registers TIA_REG_HMP0)
  let new_p0_x : Int := (tia.p0_x : Int) + shift_p0
  let new_p0_x : Int := if new_p0_x < 0 then new_p0_x + TIA_SCREEN_WIDTH else new_p0_x
  let tia := { tia with p0_x := (new_p0_x % (TIA_SCREEN_WIDTH : Int)).toNat }
  let shift_p1 := sext4 (tia.registers TIA_REG_HMP1)
  let new_p1_x : Int := (tia.p1_x : Int) + shift_p1
  let new_p1_x : Int := if new_p1_x < 0 then new_p1_x + TIA_SCREEN_WIDTH else new_p1_x
  { tia with p1_x := (new_p1_x % (TIA_SCREEN_WIDTH : Int)).toNat }

/-- `tia_apply_write_side_effects`: the `switch` on the register index. -/
def tia_apply_write_side_effects (tia : TIA) (reg data : Nat) : TIA :=
  if reg = TIA_REG_VSYNC then { tia with vsync := (data &&& 0x02) ≠ 0 }
  else if reg = TIA_REG_VBLANK then { tia with vblank := (data &&& 0x80) ≠ 0 }
  else if reg = TIA_REG_RSYNC then { tia with color_clock := 0 }
  else if reg = TIA_REG_COLUP0 then { tia with colup0 := data }
  else if reg = TIA_REG_COLUP1 then { tia with colup1 := data }
  else if reg = TIA_REG_COLUPF then { tia with colupf := data }
  else if reg = TIA_REG_COLUBK then { tia with colubk := data }
  else if reg = TIA_REG_CTRLPF then { tia with ctrlpf := data }
  else if reg = TIA_REG_PF0 then { tia with pf0 := data }
  else if reg = TIA_REG_PF1 then { tia with pf1 := data }
  else if reg = TIA_REG_PF2 then { tia with pf2 := data }
  else if reg = TIA_REG_RESP0 then { tia with p0_x := tia.color_clock }
  else if reg = TIA_REG_RESP1 then { tia with p1_x := tia.color_clock }
  else if reg = TIA_REG_GRP0 then { tia with grp0 := data }
  else if reg = TIA_REG_GRP1 then { tia with grp1 := data }
  else if reg = TIA_REG_HMOVE then hmove_objects tia
  else if reg = TIA_REG_AUDC0 then { tia with audio0 := { tia.audio0 with AUDC := data } }
  else if reg = TIA_REG_AUDF0 then { tia with audio0 := { tia.audio0 with AUDF := data } }
  else if reg = TIA_REG_AUDV0 then { tia with audio0 := { tia.audio0 with AUDV := data } }
  else if reg = TIA_REG_AUDC1 then { tia with audio1 := { tia.audio1 with AUDC := data } }
  else if reg = TIA_REG_AUDF1 then { tia with audio1 := { tia.audio1 with AUDF := data } }
  else if reg = TIA_REG_AUDV1 then { tia with audio1 := { tia.audio1 with AUDV := data } }
  else tia

/-- `tia_write`: store the byte in the mirrored register cell, then apply
the immediate side effects. -/
def tia_write (tia : TIA) (address data : Nat) : TIA :=
  let data := u8 data
  let offset := u16 address &&& 0x3F
  let tia := { tia with registers := Function.update tia.registers offset data }
  tia_apply_write_side_effects tia offset data

/-- `get_playfield_pixel`: the 20-bit playfield (PF0 bits 4..7, PF1,
PF2), with the index computed from `x`, clamped to 19, and a reflection
branch guarded by `CTRLPF` bit 0. -/
def get_playfield_pixel (tia : TIA) (x : Nat) : Bool :=
  let reflect := (tia.ctrlpf &&& CTRLPF_REFLECT_BIT) ≠ 0
  let index := x / 4
  let index := if index > 19 then 19 else index
  let index := if reflect then (if index ≥ 20 then 39 - index else index) else index
  if index < 4 then (tia.pf0 &&& (1 <<< (7 - index))) ≠ 0
  else if index < 12 then (tia.pf1 &&& (1 <<< (11 - index))) ≠ 0
  else (tia.pf2 &&& (1 <<< (19 - index))) ≠ 0

/-- `get_player_pixel`: bit `7 - (x - sprite_x)` of the pattern, when
`x - sprite_x` lies in `[0, 8)` (computed in signed C `int`s). -/
def get_player_pixel (grp : Nat) (sprite_x x : Nat) : Bool :=
  let rel : Int := (x : Int) - (sprite_x : Int)
  if rel < 0 ∨ rel > 7 then false
  else
    let shift := (7 - rel).toNat
    (grp &&& (1 <<< shift)) ≠ 0

/-- `tia_check_collisions`. -/
def tia_check_collisions (tia : TIA) (_x : Nat) (p0 p1 pf : Bool) : TIA :=
  let tia := if p0 && p1 then { tia with collisions := { tia.collisions with p0_p1 := true } } else tia
  let tia := if p0 && pf then { tia with collisions := { tia.collisions with p0_pf := true } } else tia
  if p1 && pf then { tia with collisions := { tia.collisions with p1_pf := true } } else tia

/-- `tia_render_pixel`: compose background, playfield (with score mode)
and the two players, write the RGBA pixel and latch collisions. -/
def tia_render_pixel (tia : TIA) : TIA :=
  let x := tia.color_clock
  let y := tia.scanline
  if tia.vsync then tia
  else if tia.vblank then tia
  else if y ≥ TIA_SCREEN_HEIGHT then tia
  else if x ≥ TIA_SCREEN_WIDTH then tia
  else
    let color_code := tia.colubk
    let pf := get_playfield_pixel tia x
    let p0 := get_player_pixel tia.grp0 tia.p0_x x
    let p1 := get_player_pixel tia.grp1 tia.p1_x x
    let score_mode := (tia.ctrlpf &&& CTRLPF_SCORE_BIT) ≠ 0
    let color_code :=
      if pf then
        if ¬score_mode then tia.colupf
        else if x < 80 then tia.colup0 else tia.colup1
      else color_code
    let color_code := if p0 then tia.colup0 else color_code
    let color_code := if p1 then tia.colup1 else color_code
    let fb := Function.update tia.framebuffer y
      (Function.update (tia.framebuffer y) x (tia_color_to_rgba tia color_code))
    let tia := { tia with framebuffer := fb }
    tia_check_collisions tia x p0 p1 pf

/-- `tia_cycle`: render the current pixel, then advance `color_clock`,
wrapping into `scanline` and, at the end of the frame, raising
`frame_done` and incrementing `frame_count`. -/
def tia_cycle (tia : TIA) : TIA :=
  let tia := tia_render_pixel tia
  let tia := { tia with color_clock := tia.color_clock + 1 }
  if tia.color_clock ≥ TIA_CYCLES_PER_SCANLINE then
    let tia := { tia with color_clock := 0, scanline := tia.scanline + 1 }
    if tia.scanline ≥ TIA_SCANLINES_PER_FRAME then
      { tia with scanline := 0, frame_done := true, frame_count := tia.frame_count + 1 }
    else tia
  else tia

/-! ## ACIA (`acia.c`, `acia.h`)

`fputc(data, stdout)` in `acia_process_tx` is modelled by appending the
byte to the `out` list. -/

def ACIA_START_ADDRESS : Nat := 0xD000
def ACIA_END_ADDRESS : Nat := 0xD00F
def ACIA_REG_STATUS : Nat := 0x00
def ACIA_REG_DATA_TX : Nat := 0x01
def ACIA_REG_DATA_RX : Nat := 0x02
def ACIA_REG_CONTROL : Nat := 0x03
def ACIA_STATUS_TX_READY : Nat := 0x01
def ACIA_STATUS_RX_READY : Nat := 0x02
def ACIA_STATUS_OVERRUN : Nat := 0x04
def ACIA_CONTROL_ENABLE_TX : Nat := 0x01
def ACIA_CONTROL_ENABLE_RX : Nat := 0x02
def ACIA_TX_BUFFER_SIZE : Nat := 256
def ACIA_RX_BUFFER_SIZE : Nat := 256

/-- `Acia6550`: TX and RX ring buffers with head/tail indices, readiness
bits, control and status registers.  `out` collects the bytes emitted to
the virtual serial output by `acia_process_tx`. -/
structure Acia where
  tx_buffer : Nat → Nat
  tx_head : Nat
  tx_tail : Nat
  tx_ready : Bool
  rx_buffer : Nat → Nat
  rx_head : Nat
  rx_tail : Nat
  rx_ready : Bool
  control_reg : Nat
  status_reg : Nat
  out : List Nat

/-- `acia_init`. -/
def acia_init : Acia :=
  { tx_buffer := fun _ => 0
    tx_head := 0
    tx_tail := 0
    tx_ready := true
    rx_buffer := fun _ => 0
    rx_head := 0
    rx_tail := 0
    rx_ready := false
    control_reg := 0x00
    status_reg := ACIA_STATUS_TX_READY
    out := [] }

/-- `acia_read`: a register read; returns the value and the updated
device (reading `data_rx` consumes a byte from the RX ring). -/
def acia_read (acia : Acia) (address : Nat) : Nat × Acia :=
  let offset := u16 (u16 address + (65536 - ACIA_START_ADDRESS))
  if offset = ACIA_REG_STATUS then
    let status := 0
    let status := if acia.tx_ready then status ||| ACIA_STATUS_TX_READY else status
    let status := if acia.rx_ready then status ||| ACIA_STATUS_RX_READY else status
    (status, acia)
  else if offset = ACIA_REG_DATA_RX then
    if acia.rx_ready then
      let data := acia.rx_buffer acia.rx_tail
      let acia := { acia with rx_tail := (acia.rx_tail + 1) % ACIA_RX_BUFFER_SIZE }
      let acia :=
        if acia.rx_tail = acia.rx_head then
          { acia with rx_ready := false
                      status_reg := acia.status_reg &&& (0xFF - ACIA_STATUS_RX_READY) }
        else acia
      (data, acia)
    else (0, acia)
  else if offset = ACIA_REG_CONTROL then (acia.control_reg, acia)
  else (0, acia)

/-- `acia_write`: a register write (`data_tx` enqueues into the TX ring
when the transmitter is enabled and the ring has room; `control` stores
the byte and recomputes the readiness bits). -/
def acia_write (acia : Acia) (address data : Nat) : Acia :=
  let data := u8 data
  let offset := u16 (u16 address + (65536 - ACIA_START_ADDRESS))
  if offset = ACIA_REG_DATA_TX then
    if acia.control_reg &&& ACIA_CONTROL_ENABLE_TX = 0 then acia
    else
      let next_head := (acia.tx_head + 1) % ACIA_TX_BUFFER_SIZE
      if next_head ≠ acia.tx_tail then
        { acia with tx_buffer := Function.update acia.tx_buffer acia.tx_head data
                    tx_head := next_head
                    tx_ready := false
                    status_reg := acia.status_reg &&& (0xFF - ACIA_STATUS_TX_READY) }
      else
        { acia with status_reg := acia.status_reg ||| ACIA_STATUS_OVERRUN }
  else if offset = ACIA_REG_CONTROL then
    let acia := { acia with control_reg := data }
    let acia :=
      if acia.control_reg &&& ACIA_CONTROL_ENABLE_TX ≠ 0 then
        if acia.tx_head = acia.tx_tail then
          { acia with tx_ready := true, status_reg := acia.status_reg ||| ACIA_STATUS_TX_READY }
        else { acia with tx_ready := false }
      else
        { acia with tx_ready := false
                    status_reg := acia.status_reg &&& (0xFF - ACIA_STATUS_TX_READY) }
    if acia.control_reg &&& ACIA_CONTROL_ENABLE_RX ≠ 0 then
      if acia.rx_head ≠ acia.rx_tail then
        { acia with rx_ready := true, status_reg := acia.status_reg ||| ACIA_STATUS_RX_READY }
      else { acia with rx_ready := false }
    else
      { acia with rx_ready := false
                  status_reg := acia.status_reg &&& (0xFF - ACIA_STATUS_RX_READY) }
  else acia

/-- The drain loop of `acia_process_tx`.  The C `while` loop performs at
most one pass around the 256-cell ring (the tail strictly approaches the
head modulo 256 and the loop exits when they meet), so a fuel of
`ACIA_TX_BUFFER_SIZE` iterations is exact for every reachable state. -/
def acia_process_tx_go : Nat → Acia → Acia
  | 0, acia => acia
  | fuel + 1, acia =>
    if acia.tx_tail ≠ acia.tx_head then
      let data := acia.tx_buffer acia.tx_tail
      let acia := { acia with out := acia.out ++ [data] }
      let acia := { acia with tx_tail := (acia.tx_tail + 1) % ACIA_TX_BUFFER_SIZE }
      if acia.tx_tail = acia.tx_head then
        { acia with tx_ready := true, status_reg := acia.status_reg ||| ACIA_STATUS_TX_READY }
      else acia_process_tx_go fuel acia
    else acia

/-- `acia_process_tx`: drain the TX ring to the output sink, re-asserting
TX readiness when the ring empties. -/
def acia_process_tx (acia : Acia) : Acia :=
  if acia.control_reg &&& ACIA_CONTROL_ENABLE_TX = 0 ∨ acia.tx_ready then acia
  else acia_process_tx_go ACIA_TX_BUFFER_SIZE acia

/-- `acia_provide_input`: enqueue the bytes of the NUL-terminated input
string (modelled as the list of its bytes) into the RX ring; on the
first byte that does not fit, set OVERRUN and stop. -/
def acia_provide_input (acia : Acia) : List Nat → Acia
  | [] => acia
  | d :: rest =>
    let next_head := (acia.rx_head + 1) % ACIA_RX_BUFFER_SIZE
    if next_head = acia.rx_tail then
      { acia with status_reg := acia.status_reg ||| ACIA_STATUS_OVERRUN }
    else
      let acia := { acia with rx_buffer := Function.update acia.rx_buffer acia.rx_head (u8 d)
                              rx_head := next_head
                              rx_ready := true
                              status_reg := acia.status_reg ||| ACIA_STATUS_RX_READY }
      acia_provide_input acia rest

/-! ## VIA (`src/via.c`, `src/via.h`)

`putchar` calls (the serial output sink and the PB7 strobe) are modelled
by appending the byte to the `out` list. -/

def VIA_BASE_ADDRESS : Nat := 0x6000
def VIA_END_ADDRESS : Nat := 0x600F
def VIA_REG_ORB : Nat := 0x00
def VIA_REG_ORA : Nat := 0x01
def VIA_REG_DDRB : Nat := 0x02
def VIA_REG_DDRA : Nat := 0x03
def VIA_REG_T1CL : Nat := 0x04
def VIA_REG_T1CH : Nat := 0x05
def VIA_REG_T2CL : Nat := 0x08
def VIA_REG_T2CH : Nat := 0x09
def VIA_REG_SR : Nat := 0x0A
def VIA_REG_IFR : Nat := 0x0D
def VIA_REG_IER : Nat := 0x0E
def VIA_SERIAL_OUT_BIT : Nat := 0x80
def VIA_SERIAL_IN_BIT : Nat := 0x40
def VIA_SERIAL_IN_BUF_SIZE : Nat := 256

/-- `VIA6522`: sixteen register cells, the two timers, interrupt flag and
enable bytes, the inbound serial ring and the shift register.  `out`
collects the bytes emitted through `putchar`.  (`shift_mode` is set by
`via_init` and never changed by the code.) -/
structure VIA6522 where
  reg : Nat → Nat
  t1c : Nat
  t1l : Nat
  t2c : Nat
  t2l : Nat
  ifr : Nat
  ier : Nat
  serial_in_buf : Nat → Nat
  serial_in_head : Nat
  serial_in_tail : Nat
  shift_reg : Nat
  shift_count : Nat
  shift_active : Bool
  shift_mode : Nat
  sr_irq_flag : Bool
  sr_tx_ready : Bool
  sr_rx_ready : Bool
  out : List Nat

/-- `via_init`. -/
def via_init : VIA6522 :=
  { reg := fun _ => 0
    t1c := 0
    t1l := 0
    t2c := 0
    t2l := 0
    ifr := 0
    ier := 0
    serial_in_buf := fun _ => 0
    serial_in_head := 0
    serial_in_tail := 0
    shift_reg := 0
    shift_count := 0
    shift_active := false
    shift_mode := 0
    sr_irq_flag := false
    sr_tx_ready := true
    sr_rx_ready := false
    out := [] }

/-- `via_serial_feed`: enqueue bytes into the inbound serial ring,
stopping silently when the ring is full. -/
def via_serial_feed (via : VIA6522) : List Nat → VIA6522
  | [] => via
  | c :: rest =>
    let next_head := (via.serial_in_head + 1) % VIA_SERIAL_IN_BUF_SIZE
    if next_head = via.serial_in_tail then via
    else
      let via := { via with serial_in_buf := Function.update via.serial_in_buf via.serial_in_head (u8 c)
                            serial_in_head := next_head }
      via_serial_feed via rest

/-- `via_serial_rx_byte`: place a received byte in the shift register and
raise RX-ready and IFR bit 4. -/
def via_serial_rx_byte (via : VIA6522) (byte : Nat) : VIA6522 :=
  { via with shift_reg := u8 byte, sr_rx_ready := true, ifr := via.ifr ||| 0x10 }

/-- `via_tick_serial`: while the shift register is active, shift left one
bit and decrement the counter; when the counter reaches 0, deactivate,
assert TX-ready, set IFR bit 4 and emit the (fully shifted) register to
the output sink. -/
def via_tick_serial (via : VIA6522) : VIA6522 :=
  if ¬via.shift_active then via
  else
    let via := { via with shift_reg := u8 (via.shift_reg <<< 1) }
    let via := { via with shift_count := u8 (via.shift_count + 255) }
    if via.shift_count = 0 then
      { via with shift_active := false
                 sr_tx_ready := true
                 ifr := via.ifr ||| 0x10
                 out := via.out ++ [via.shift_reg] }
    else via

/-- `via_tick`: decrement the nonzero timers (setting IFR bit 6 / bit 5
when they reach zero), then tick the shift register. -/
def via_tick (via : VIA6522) : VIA6522 :=
  let via :=
    if via.t1c > 0 then
      let via := { via with t1c := via.t1c - 1 }
      if via.t1c = 0 then { via with ifr := via.ifr ||| 0x40 } else via
    else via
  let via :=
    if via.t2c > 0 then
      let via := { via with t2c := via.t2c - 1 }
      if via.t2c = 0 then { via with ifr := via.ifr ||| 0x20 } else via
    else via
  via_tick_serial via

/-- `via_read`: a register read; returns the value and the updated device
(ORA consumes the inbound serial ring, SR consumes the received byte). -/
def via_read (via : VIA6522) (address : Nat) : Nat × VIA6522 :=
  let reg := u16 (u16 address + (65536 - VIA_BASE_ADDRESS)) &&& 0x0F
  if reg = VIA_REG_ORB then
    let val := via.reg VIA_REG_ORB
    let val :=
      if via.serial_in_head ≠ via.serial_in_tail then val ||| VIA_SERIAL_IN_BIT
      else val &&& (0xFF - VIA_SERIAL_IN_BIT)
    (val, via)
  else if reg = VIA_REG_ORA then
    if via.serial_in_head ≠ via.serial_in_tail then
      let c := via.serial_in_buf via.serial_in_tail
      (c, { via with serial_in_tail := (via.serial_in_tail + 1) % VIA_SERIAL_IN_BUF_SIZE })
    else (via.reg VIA_REG_ORA, via)
  else if reg = VIA_REG_SR then
    if via.sr_rx_ready then
      (via.shift_reg, { via with sr_rx_ready := false, ifr := via.ifr &&& (0xFF - 0x10) })
    else (0x00, via)
  else if reg = VIA_REG_IFR then (via.ifr, via)
  else if reg = VIA_REG_IER then (via.ier ||| 0x80, via)
  else (via.reg reg, via)

/-- `via_write`: a register write (PB7 of ORB strobes ORA to the output
sink, T1CH/T2CH load the counters, SR starts a transmission, IFR clears
the bits written as 1, IER enables/disables by bit 7). -/
def via_write (via : VIA6522) (address value : Nat) : VIA6522 :=
  let value := u8 value
  let reg := u16 (u16 address + (65536 - VIA_BASE_ADDRESS)) &&& 0x0F
  if reg = VIA_REG_ORB then
    let via :=
      if value &&& VIA_SERIAL_OUT_BIT ≠ 0 then { via with out := via.out ++ [via.reg VIA_REG_ORA] }
      else via
    { via with reg := Function.update via.reg VIA_REG_ORB value }
  else if reg = VIA_REG_ORA then
    { via with reg := Function.update via.reg VIA_REG_ORA value }
  else if reg = VIA_REG_DDRB ∨ reg = VIA_REG_DDRA then
    { via with reg := Function.update via.reg reg value }
  else if reg = VIA_REG_T1CL then
    { via with t1l := (via.t1l &&& 0xFF00) ||| value }
  else if reg = VIA_REG_T1CH then
    let via := { via with t1l := (via.t1l &&& 0x00FF) ||| (value <<< 8) }
    { via with t1c := via.t1l }
  else if reg = VIA_REG_T2CL then
    { via with t2l := (via.t2l &&& 0xFF00) ||| value }
  else if reg = VIA_REG_T2CH then
    let via := { via with t2l := (via.t2l &&& 0x00FF) ||| (value <<< 8) }
    { via with t2c := via.t2l }
  else if reg = VIA_REG_SR then
    { via with shift_reg := value
               shift_count := 8
               shift_active := true
               sr_tx_ready := false
               ifr := via.ifr &&& (0xFF - 0x10) }
  else if reg = VIA_REG_IFR then
    { via with ifr := via.ifr &&& (0xFF - value) }
  else if reg = VIA_REG_IER then
    if value &&& 0x80 ≠ 0 then { via with ier := via.ier ||| (value &&& 0x7F) }
    else { via with ier := via.ier &&& (0xFF - (value &&& 0x7F)) }
  else
    { via with reg := Function.update via.reg reg value }

/-! ## Bus (`src/bus.c`, `bus.h`)

The optional clock pacer only gates wall-clock time and touches no
machine-visible state; of it only the `clock_disabled` flag is kept.
The ghost field `accesses` records the address of every bus read and
write (most recent first); it instruments the model and corresponds to
no C state. -/

/-- `bus_t`. -/
structure Bus where
  memory : Mem
  tia : Option TIA
  acia : Option Acia
  via : Option VIA6522
  clock_disabled : Bool
  accesses : List Nat

/-- `bus_read_memory`: decode the address in order TIA, ACIA, VIA, RAM;
otherwise `0xFF`.  Returns the byte and the updated bus (device reads
can have side effects). -/
def bus_read_memory (bus : Bus) (address : Nat) : Nat × Bus :=
  let address := u16 address
  let bus := { bus with accesses := address :: bus.accesses }
  if h : bus.tia.isSome ∧ address ≤ TIA_END_ADDRESS then
    (tia_read (bus.tia.get h.1) address, bus)
  else if h : bus.acia.isSome ∧ ACIA_START_ADDRESS ≤ address ∧ address ≤ ACIA_END_ADDRESS then
    let r := acia_read (bus.acia.get h.1) address
    (r.1, { bus with acia := some r.2 })
  else if h : bus.via.isSome ∧ VIA_BASE_ADDRESS ≤ address ∧ address ≤ VIA_END_ADDRESS then
    let r := via_read (bus.via.get h.1) address
    (r.1, { bus with via := some r.2 })
  else if address < bus.memory.size then
    (memory_read bus.memory address, bus)
  else (0xFF, bus)

/-- `bus_write_memory`: decode the address in order TIA, ACIA, VIA, RAM;
otherwise the write is a no-op. -/
def bus_write_memory (bus : Bus) (address value : Nat) : Bus :=
  let address := u16 address
  let value := u8 value
  let bus := { bus with accesses := address :: bus.accesses }
  if h : bus.tia.isSome ∧ address ≤ TIA_END_ADDRESS then
    { bus with tia := some (tia_write (bus.tia.get h.1) address value) }
  else if h : bus.acia.isSome ∧ ACIA_START_ADDRESS ≤ address ∧ address ≤ ACIA_END_ADDRESS then
    { bus with acia := some (acia_write (bus.acia.get h.1) address value) }
  else if h : bus.via.isSome ∧ VIA_BASE_ADDRESS ≤ address ∧ address ≤ VIA_END_ADDRESS then
    { bus with via := some (via_write (bus.via.get h.1) address value) }
  else if address < bus.memory.size then
    { bus with memory := memory_write bus.memory address value }
  else bus

/-! ## CPU (`src/cpu.c`, `cpu.h`) -/

def STACK_BASE : Nat := 0x0100
def RESET_VECTOR : Nat := 0xFFFC
def NMI_VECTOR : Nat := 0xFFFA
def IRQ_VECTOR : Nat := 0xFFFE

/-- `cpu6502_t` (without the bus pointer, carried separately in
`Machine`).  The C `int` penalty fields hold 0/1; `cycles` is a C
`double` that only ever holds small naturals. -/
structure Cpu where
  a : Nat
  x : Nat
  y : Nat
  sp : Nat
  pc : Nat
  status : Nat
  flag_c : Bool
  flag_z : Bool
  flag_i : Bool
  flag_d : Bool
  flag_v : Bool
  flag_n : Bool
  effective_addr : Nat
  current_opcode : Nat
  penalty_opcode : Nat
  penalty_address : Nat
  cycles : Nat
  halted : Bool

/-- The CPU together with the bus it drives (`cpu->bus`). -/
structure Machine where
  cpu : Cpu
  bus : Bus

/-- A bus read issued by the CPU (`bus_read_memory(cpu->bus, ...)`). -/
def mread (m : Machine) (address : Nat) : Nat × Machine :=
  let r := bus_read_memory m.bus address
  (r.1, { m with bus := r.2 })

/-- A bus write issued by the CPU (`bus_write_memory(cpu->bus, ...)`). -/
def mwrite (m : Machine) (address value : Nat) : Machine :=
  { m with bus := bus_write_memory m.bus address value }

/-- `push8`: write at `STACK_BASE + sp`, then decrement `sp` (wrapping as
a `uint8_t`). -/
def push8 (m : Machine) (value : Nat) : Machine :=
  let m := mwrite m (STACK_BASE + m.cpu.sp) value
  { m with cpu := { m.cpu with sp := u8 (m.cpu.sp + 255) } }

/-- `pull8`: increment `sp` (wrapping as a `uint8_t`), then read at
`STACK_BASE + sp`. -/
def pull8 (m : Machine) : Nat × Machine :=
  let m := { m with cpu := { m.cpu with sp := u8 (m.cpu.sp + 1) } }
  mread m (STACK_BASE + m.cpu.sp)

/-- `push16`: write the high byte at `STACK_BASE + sp` and the low byte
at `STACK_BASE + ((sp - 1) & 0xFF)`, then decrement `sp` by 2. -/
def push16 (m : Machine) (value : Nat) : Machine :=
  let m := mwrite m (STACK_BASE + m.cpu.sp) ((value >>> 8) &&& 0xFF)
  let m := mwrite m (STACK_BASE + u8 (m.cpu.sp + 255)) (value &&& 0xFF)
  { m with cpu := { m.cpu with sp := u8 (m.cpu.sp + 254) } }

/-- `pull16`: increment `sp` by 2, read the low byte at
`STACK_BASE + ((sp - 1) & 0xFF)` and the high byte at
`STACK_BASE + (sp & 0xFF)`. -/
def pull16 (m : Machine) : Nat × Machine :=
  let m := { m with cpu := { m.cpu with sp := u8 (m.cpu.sp + 2) } }
  let r1 := mread m (STACK_BASE + u8 (m.cpu.sp + 255))
  let r2 := mread r1.2 (STACK_BASE + (m.cpu.sp &&& 0xFF))
  ((r2.1 <<< 8) ||| r1.1, r2.2)

/-- `read_word`: little-endian 16-bit read. -/
def read_word (m : Machine) (address : Nat) : Nat × Machine :=
  let r1 := mread m address
  let r2 := mread r1.2 (u16 (address + 1))
  (r1.1 ||| (r2.1 <<< 8), r2.2)

/-- `calc_flag_z`. -/
def calc_flag_z (m : Machine) (val : Nat) : Machine :=
  { m with cpu := { m.cpu with flag_z := val = 0 } }

/-- `calc_flag_n`. -/
def calc_flag_n (m : Machine) (val : Nat) : Machine :=
  { m with cpu := { m.cpu with flag_n := (val &&& 0x80) ≠ 0 } }

/-- `calc_flags_zn`. -/
def calc_flags_zn (m : Machine) (val : Nat) : Machine :=
  calc_flag_n (calc_flag_z m val) val

/-- `calc_flag_c` (on the 16-bit intermediate value). -/
def calc_flag_c (m : Machine) (val : Nat) : Machine :=
  { m with cpu := { m.cpu with flag_c := val > 0xFF } }

/-- `calc_flags_czn`. -/
def calc_flags_czn (m : Machine) (val : Nat) : Machine :=
  calc_flags_zn (calc_flag_c m val) (u8 val)

/-- `calc_flag_v`: overflow iff the sign bits of the operands agree and
differ from the result's. -/
def calc_flag_v (m : Machine) (result accu operand : Nat) : Machine :=
  { m with cpu := { m.cpu with
      flag_v := (((accu ^^^ operand) ^^^ 0xFF) &&& (accu ^^^ result) &&& 0x80) ≠ 0 } }

/-- `compare`: set C, Z, N from `reg - operand`. -/
def compare (m : Machine) (reg operand : Nat) : Machine :=
  let result := u8 (reg + 256 - operand)
  let m := { m with cpu := { m.cpu with flag_c := reg ≥ operand } }
  calc_flags_zn m result

/-- `cpu6502_set_status`: unpack N, V, D, I, Z, C from a status byte
(bits 5 and 4 are ignored). -/
def cpu6502_set_status (m : Machine) (value : Nat) : Machine :=
  { m with cpu := { m.cpu with
      flag_n := (value &&& 0x80) ≠ 0
      flag_v := (value &&& 0x40) ≠ 0
      flag_d := (value &&& 0x08) ≠ 0
      flag_i := (value &&& 0x04) ≠ 0
      flag_z := (value &&& 0x02) ≠ 0
      flag_c := (value &&& 0x01) ≠ 0 } }

/-- `cpu6502_get_status`: pack the six flags into a byte with bit 5 set
and bit 4 clear. -/
def cpu6502_get_status (m : Machine) : Nat :=
  let status := 0
  let status := status ||| (if m.cpu.flag_c then 0x01 else 0x00)
  let status := status ||| (if m.cpu.flag_z then 0x02 else 0x00)
  let status := status ||| (if m.cpu.flag_i then 0x04 else 0x00)
  let status := status ||| (if m.cpu.flag_d then 0x08 else 0x00)
  let status := status ||| 0x20
  let status := status ||| (if m.cpu.flag_v then 0x40 else 0x00)
  let status := status ||| (if m.cpu.flag_n then 0x80 else 0x00)
  status

/-! ### Addressing modes

The C dispatch table stores function pointers and `get_operand` compares
the stored pointer against `am_accumulator`; the modes are therefore
modelled as an enumeration with an interpreter. -/

/-- The thirteen addressing-mode routines (`am_*`). -/
inductive AddrMode where
  | implied
  | accumulator
  | immediate
  | zero_page
  | zero_page_x
  | zero_page_y
  | absolute
  | relative
  | absolute_x
  | absolute_y
  | indirect
  | indexed_indirect
  | indirect_indexed
deriving DecidableEq

/-- Run an addressing-mode routine: compute `effective_addr`, advance
`pc` past the operand bytes and raise `penalty_address` on an indexed
page crossing. -/
def runAddrMode : AddrMode → Machine → Machine
  | .implied, m => m
  | .accumulator, m => m
  | .immediate, m =>
    { m with cpu := { m.cpu with effective_addr := m.cpu.pc, pc := u16 (m.cpu.pc + 1) } }
  | .zero_page, m =>
    let r := mread m m.cpu.pc
    let m := r.2
    { m with cpu := { m.cpu with effective_addr := r.1, pc := u16 (m.cpu.pc + 1) } }
  | .zero_page_x, m =>
    let r := mread m m.cpu.pc
    let m := r.2
    { m with cpu := { m.cpu with effective_addr := u8 (r.1 + m.cpu.x), pc := u16 (m.cpu.pc + 1) } }
  | .zero_page_y, m =>
    let r := mread m m.cpu.pc
    let m := r.2
    { m with cpu := { m.cpu with effective_addr := u8 (r.1 + m.cpu.y), pc := u16 (m.cpu.pc + 1) } }
  | .absolute, m =>
    let r := read_word m m.cpu.pc
    let m := r.2
    { m with cpu := { m.cpu with effective_addr := r.1, pc := u16 (m.cpu.pc + 2) } }
  | .relative, m =>
    let branch_pc := m.cpu.pc
    let r := mread m m.cpu.pc
    let m := r.2
    let m := { m with cpu := { m.cpu with pc := u16 (m.cpu.pc + 1) } }
    { m with cpu := { m.cpu with
        effective_addr := i16wrap ((branch_pc : Int) + 1 + sext8 r.1) } }
  | .absolute_x, m =>
    let r := read_word m m.cpu.pc
    let m := r.2
    let page := r.1 &&& 0xFF00
    let base_addr := u16 (r.1 + m.cpu.x)
    { m with cpu := { m.cpu with
        penalty_address := if page ≠ (base_addr &&& 0xFF00) then 1 else 0
        effective_addr := base_addr
        pc := u16 (m.cpu.pc + 2) } }
  | .absolute_y, m =>
    let r := read_word m m.cpu.pc
    let m := r.2
    let page := r.1 &&& 0xFF00
    let base_addr := u16 (r.1 + m.cpu.y)
    { m with cpu := { m.cpu with
        penalty_address := if page ≠ (base_addr &&& 0xFF00) then 1 else 0
        effective_addr := base_addr
        pc := u16 (m.cpu.pc + 2) } }
  | .indirect, m =>
    let r := read_word m m.cpu.pc
    let m := r.2
    let pointer := r.1
    let pointer_hi := (pointer &&& 0xFF00) ||| ((pointer + 1) &&& 0x00FF)
    let r1 := mread m pointer
    let r2 := mread r1.2 pointer_hi
    let m := r2.2
    { m with cpu := { m.cpu with
        effective_addr := r1.1 ||| (r2.1 <<< 8)
        pc := u16 (m.cpu.pc + 2) } }
  | .indexed_indirect, m =>
    let r := mread m m.cpu.pc
    let m := r.2
    let m := { m with cpu := { m.cpu with pc := u16 (m.cpu.pc + 1) } }
    let ptr := u8 (r.1 + m.cpu.x)
    let r1 := mread m ptr
    let r2 := mread r1.2 ((ptr + 1) &&& 0xFF)
    let m := r2.2
    { m with cpu := { m.cpu with effective_addr := r1.1 ||| (r2.1 <<< 8) } }
  | .indirect_indexed, m =>
    let r := mread m m.cpu.pc
    let m := r.2
    let m := { m with cpu := { m.cpu with pc := u16 (m.cpu.pc + 1) } }
    let ptr := r.1
    let r1 := mread m ptr
    let r2 := mread r1.2 ((ptr + 1) &&& 0xFF)
    let m := r2.2
    let base := r1.1 ||| (r2.1 <<< 8)
    let page := base &&& 0xFF00
    let base := u16 (base + m.cpu.y)
    { m with cpu := { m.cpu with
        penalty_address := if page ≠ (base &&& 0xFF00) then 1 else 0
        effective_addr := base } }

/-! ### Opcode table -/

/-- The operation half of the dispatch table (`op_*`). -/
inductive Op where
  | brk | php | bpl | clc | jsr | bit | plp | rol | bmi | sec
  | rti | and | eor | ora | bcc | bcs | pha | lsr | jmp | bvc
  | cli | rts | adc | pla | ror | bvs | sei | sty | stx | dey
  | txa | sta | tya | txs | ldy | lda | ldx | tay | tsx | tax
  | clv | cpy | cmp | dec | iny | dex | bne | cld | cpx | sbc
  | inc | asl | inx | beq | sed | nop | anc | alr | arr | ane
  | lxa | sbx | jam | slo | rla | sre | rra | sax | lax | dcp
  | isc | sha | shx | shy | tas | las
deriving DecidableEq

/-- `opcode_t`: one entry of the dispatch table. -/
structure OpcodeEntry where
  addr_mode : AddrMode
  opcode_func : Op
  cycles : Nat

set_option maxHeartbeats 3200000 in
/-- The 256-entry opcode table built by `opcode_table_init`.  (The index
is a `uint8_t`, so the catch-all case is unreachable.) -/
def opcodeTable : Nat → OpcodeEntry
  | 0x00 => ⟨.implied, .brk, 7⟩
  | 0x01 => ⟨.indexed_indirect, .ora, 6⟩
  | 0x02 => ⟨.implied, .jam, 2⟩
  | 0x03 => ⟨.indexed_indirect, .slo, 8⟩
  | 0x04 => ⟨.zero_page, .nop, 3⟩
  | 0x05 => ⟨.zero_page, .ora, 3⟩
  | 0x06 => ⟨.zero_page, .asl, 5⟩
  | 0x07 => ⟨.zero_page, .slo, 5⟩
  | 0x08 => ⟨.implied, .php, 3⟩
  | 0x09 => ⟨.immediate, .ora, 2⟩
  | 0x0A => ⟨.accumulator, .asl, 2⟩
  | 0x0B => ⟨.immediate, .anc, 2⟩
  | 0x0C => ⟨.absolute, .nop, 4⟩
  | 0x0D => ⟨.absolute, .ora, 4⟩
  | 0x0E => ⟨.absolute, .asl, 6⟩
  | 0x0F => ⟨.absolute, .slo, 6⟩
  | 0x10 => ⟨.relative, .bpl, 2⟩
  | 0x11 => ⟨.indirect_indexed, .ora, 5⟩
  | 0x12 => ⟨.implied, .jam, 2⟩
  | 0x13 => ⟨.indirect_indexed, .slo, 8⟩
  | 0x14 => ⟨.zero_page_x, .nop, 4⟩
  | 0x15 => ⟨.zero_page_x, .ora, 4⟩
  | 0x16 => ⟨.zero_page_x, .asl, 6⟩
  | 0x17 => ⟨.zero_page_x, .slo, 6⟩
  | 0x18 => ⟨.implied, .clc, 2⟩
  | 0x19 => ⟨.absolute_y, .ora, 4⟩
  | 0x1A => ⟨.implied, .nop, 2⟩
  | 0x1B => ⟨.absolute_y, .slo, 7⟩
  | 0x1C => ⟨.absolute_x, .nop, 4⟩
  | 0x1D => ⟨.absolute_x, .ora, 4⟩
  | 0x1E => ⟨.absolute_x, .asl, 7⟩
  | 0x1F => ⟨.absolute_x, .slo, 7⟩
  | 0x20 => ⟨.absolute, .jsr, 6⟩
  | 0x21 => ⟨.indexed_indirect, .and, 6⟩
  | 0x22 => ⟨.implied, .jam, 2⟩
  | 0x23 => ⟨.indexed_indirect, .rla, 8⟩
  | 0x24 => ⟨.zero_page, .bit, 3⟩
  | 0x25 => ⟨.zero_page, .and, 3⟩
  | 0x26 => ⟨.zero_page, .rol, 5⟩
  | 0x27 => ⟨.zero_page, .rla, 5⟩
  | 0x28 => ⟨.implied, .plp, 4⟩
  | 0x29 => ⟨.immediate, .and, 2⟩
  | 0x2A => ⟨.accumulator, .rol, 2⟩
  | 0x2B => ⟨.immediate, .anc, 2⟩
  | 0x2C => ⟨.absolute, .bit, 4⟩
  | 0x2D => ⟨.absolute, .and, 4⟩
  | 0x2E => ⟨.absolute, .rol, 6⟩
  | 0x2F => ⟨.absolute, .rla, 6⟩
  | 0x30 => ⟨.relative, .bmi, 2⟩
  | 0x31 => ⟨.indirect_indexed, .and, 5⟩
  | 0x32 => ⟨.implied, .jam, 2⟩
  | 0x33 => ⟨.indirect_indexed, .rla, 8⟩
  | 0x34 => ⟨.zero_page_x, .nop, 4⟩
  | 0x35 => ⟨.zero_page_x, .and, 4⟩
  | 0x36 => ⟨.zero_page_x, .rol, 6⟩
  | 0x37 => ⟨.zero_page_x, .rla, 6⟩
  | 0x38 => ⟨.implied, .sec, 2⟩
  | 0x39 => ⟨.absolute_y, .and, 4⟩
  | 0x3A => ⟨.implied, .nop, 2⟩
  | 0x3B => ⟨.absolute_y, .rla, 7⟩
  | 0x3C => ⟨.absolute_x, .nop, 4⟩
  | 0x3D => ⟨.absolute_x, .and, 4⟩
  | 0x3E => ⟨.absolute_x, .rol, 7⟩
  | 0x3F => ⟨.absolute_x, .rla, 7⟩
  | 0x40 => ⟨.implied, .rti, 6⟩
  | 0x41 => ⟨.indexed_indirect, .eor, 6⟩
  | 0x42 => ⟨.implied, .jam, 2⟩
  | 0x43 => ⟨.indexed_indirect, .sre, 8⟩
  | 0x44 => ⟨.zero_page, .nop, 3⟩
  | 0x45 => ⟨.zero_page, .eor, 3⟩
  | 0x46 => ⟨.zero_page, .lsr, 5⟩
  | 0x47 => ⟨.zero_page, .sre, 5⟩
  | 0x48 => ⟨.implied, .pha, 3⟩
  | 0x49 => ⟨.immediate, .eor, 2⟩
  | 0x4A => ⟨.accumulator, .lsr, 2⟩
  | 0x4B => ⟨.immediate, .alr, 2⟩
  | 0x4C => ⟨.absolute, .jmp, 3⟩
  | 0x4D => ⟨.absolute, .eor, 4⟩
  | 0x4E => ⟨.absolute, .lsr, 6⟩
  | 0x4F => ⟨.absolute, .sre, 6⟩
  | 0x50 => ⟨.relative, .bvc, 2⟩
  | 0x51 => ⟨.indirect_indexed, .eor, 5⟩
  | 0x52 => ⟨.implied, .jam, 2⟩
  | 0x53 => ⟨.indirect_indexed, .sre, 8⟩
  | 0x54 => ⟨.zero_page_x, .nop, 4⟩
  | 0x55 => ⟨.zero_page_x, .eor, 4⟩
  | 0x56 => ⟨.zero_page_x, .lsr, 6⟩
  | 0x57 => ⟨.zero_page_x, .sre, 6⟩
  | 0x58 => ⟨.implied, .cli, 2⟩
  | 0x59 => ⟨.absolute_y, .eor, 4⟩
  | 0x5A => ⟨.implied, .nop, 2⟩
  | 0x5B => ⟨.absolute_y, .sre, 7⟩
  | 0x5C => ⟨.absolute_x, .nop, 4⟩
  | 0x5D => ⟨.absolute_x, .eor, 4⟩
  | 0x5E => ⟨.absolute_x, .lsr, 7⟩
  | 0x5F => ⟨.absolute_x, .sre, 7⟩
  | 0x60 => ⟨.implied, .rts, 6⟩
  | 0x61 => ⟨.indexed_indirect, .adc, 6⟩
  | 0x62 => ⟨.implied, .jam, 2⟩
  | 0x63 => ⟨.indexed_indirect, .rra, 8⟩
  | 0x64 => ⟨.zero_page, .nop, 3⟩
  | 0x65 => ⟨.zero_page, .adc, 3⟩
  | 0x66 => ⟨.zero_page, .ror, 5⟩
  | 0x67 => ⟨.zero_page, .rra, 5⟩
  | 0x68 => ⟨.implied, .pla, 4⟩
  | 0x69 => ⟨.immediate, .adc, 2⟩
  | 0x6A => ⟨.accumulator, .ror, 2⟩
  | 0x6B => ⟨.immediate, .arr, 2⟩
  | 0x6C => ⟨.indirect, .jmp, 5⟩
  | 0x6D => ⟨.absolute, .adc, 4⟩
  | 0x6E => ⟨.absolute, .ror, 6⟩
  | 0x6F => ⟨.absolute, .rra, 6⟩
  | 0x70 => ⟨.relative, .bvs, 2⟩
  | 0x71 => ⟨.indirect_indexed, .adc, 5⟩
  | 0x72 => ⟨.implied, .jam, 2⟩
  | 0x73 => ⟨.indirect_indexed, .rra, 8⟩
  | 0x74 => ⟨.zero_page_x, .nop, 4⟩
  | 0x75 => ⟨.zero_page_x, .adc, 4⟩
  | 0x76 => ⟨.zero_page_x, .ror, 6⟩
  | 0x77 => ⟨.zero_page_x, .rra, 6⟩
  | 0x78 => ⟨.implied, .sei, 2⟩
  | 0x79 => ⟨.absolute_y, .adc, 4⟩
  | 0x7A => ⟨.implied, .nop, 2⟩
  | 0x7B => ⟨.absolute_y, .rra, 7⟩
  | 0x7C => ⟨.absolute_x, .nop, 4⟩
  | 0x7D => ⟨.absolute_x, .adc, 4⟩
  | 0x7E => ⟨.absolute_x, .ror, 7⟩
  | 0x7F => ⟨.absolute_x, .rra, 7⟩
  | 0x80 => ⟨.immediate, .nop, 2⟩
  | 0x81 => ⟨.indexed_indirect, .sta, 6⟩
  | 0x82 => ⟨.immediate, .nop, 2⟩
  | 0x83 => ⟨.indexed_indirect, .sax, 6⟩
  | 0x84 => ⟨.zero_page, .sty, 3⟩
  | 0x85 => ⟨.zero_page, .sta, 3⟩
  | 0x86 => ⟨.zero_page, .stx, 3⟩
  | 0x87 => ⟨.zero_page, .sax, 3⟩
  | 0x88 => ⟨.implied, .dey, 2⟩
  | 0x89 => ⟨.immediate, .nop, 2⟩
  | 0x8A => ⟨.implied, .txa, 2⟩
  | 0x8B => ⟨.immediate, .ane, 2⟩
  | 0x8C => ⟨.absolute, .sty, 4⟩
  | 0x8D => ⟨.absolute, .sta, 4⟩
  | 0x8E => ⟨.absolute, .stx, 4⟩
  | 0x8F => ⟨.absolute, .sax, 4⟩
  | 0x90 => ⟨.relative, .bcc, 2⟩
  | 0x91 => ⟨.indirect_indexed, .sta, 6⟩
  | 0x92 => ⟨.implied, .jam, 2⟩
  | 0x93 => ⟨.indirect_indexed, .sha, 6⟩
  | 0x94 => ⟨.zero_page_x, .sty, 4⟩
  | 0x95 => ⟨.zero_page_x, .sta, 4⟩
  | 0x96 => ⟨.zero_page_y, .stx, 4⟩
  | 0x97 => ⟨.zero_page_y, .sax, 4⟩
  | 0x98 => ⟨.implied, .tya, 2⟩
  | 0x99 => ⟨.absolute_y, .sta, 5⟩
  | 0x9A => ⟨.implied, .txs, 2⟩
  | 0x9B => ⟨.absolute_y, .tas, 5⟩
  | 0x9C => ⟨.absolute_x, .shy, 5⟩
  | 0x9D => ⟨.absolute_x, .sta, 5⟩
  | 0x9E => ⟨.absolute_y, .shx, 5⟩
  | 0x9F => ⟨.absolute_y, .sha, 5⟩
  | 0xA0 => ⟨.immediate, .ldy, 2⟩
  | 0xA1 => ⟨.indexed_indirect, .lda, 6⟩
  | 0xA2 => ⟨.immediate, .ldx, 2⟩
  | 0xA3 => ⟨.indexed_indirect, .lax, 6⟩
  | 0xA4 => ⟨.zero_page, .ldy, 3⟩
  | 0xA5 => ⟨.zero_page, .lda, 3⟩
  | 0xA6 => ⟨.zero_page, .ldx, 3⟩
  | 0xA7 => ⟨.zero_page, .lax, 3⟩
  | 0xA8 => ⟨.implied, .tay, 2⟩
  | 0xA9 => ⟨.immediate, .lda, 2⟩
  | 0xAA => ⟨.implied, .tax, 2⟩
  | 0xAB => ⟨.immediate, .lxa, 2⟩
  | 0xAC => ⟨.absolute, .ldy, 4⟩
  | 0xAD => ⟨.absolute, .lda, 4⟩
  | 0xAE => ⟨.absolute, .ldx, 4⟩
  | 0xAF => ⟨.absolute, .lax, 4⟩
  | 0xB0 => ⟨.relative, .bcs, 2⟩
  | 0xB1 => ⟨.indirect_indexed, .lda, 5⟩
  | 0xB2 => ⟨.implied, .jam, 2⟩
  | 0xB3 => ⟨.indirect_indexed, .lax, 5⟩
  | 0xB4 => ⟨.zero_page_x, .ldy, 4⟩
  | 0xB5 => ⟨.zero_page_x, .lda, 4⟩
  | 0xB6 => ⟨.zero_page_y, .ldx, 4⟩
  | 0xB7 => ⟨.zero_page_y, .lax, 4⟩
  | 0xB8 => ⟨.implied, .clv, 2⟩
  | 0xB9 => ⟨.absolute_y, .lda, 4⟩
  | 0xBA => ⟨.implied, .tsx, 2⟩
  | 0xBB => ⟨.absolute_y, .las, 4⟩
  | 0xBC => ⟨.absolute_x, .ldy, 4⟩
  | 0xBD => ⟨.absolute_x, .lda, 4⟩
  | 0xBE => ⟨.absolute_y, .ldx, 4⟩
  | 0xBF => ⟨.absolute_y, .lax, 4⟩
  | 0xC0 => ⟨.immediate, .cpy, 2⟩
  | 0xC1 => ⟨.indexed_indirect, .cmp, 6⟩
  | 0xC2 => ⟨.immediate, .nop, 2⟩
  | 0xC3 => ⟨.indexed_indirect, .dcp, 8⟩
  | 0xC4 => ⟨.zero_page, .cpy, 3⟩
  | 0xC5 => ⟨.zero_page, .cmp, 3⟩
  | 0xC6 => ⟨.zero_page, .dec, 5⟩
  | 0xC7 => ⟨.zero_page, .dcp, 5⟩
  | 0xC8 => ⟨.implied, .iny, 2⟩
  | 0xC9 => ⟨.immediate, .cmp, 2⟩
  | 0xCA => ⟨.implied, .dex, 2⟩
  | 0xCB => ⟨.immediate, .sbx, 2⟩
  | 0xCC => ⟨.absolute, .cpy, 4⟩
  | 0xCD => ⟨.absolute, .cmp, 4⟩
  | 0xCE => ⟨.absolute, .dec, 6⟩
  | 0xCF => ⟨.absolute, .dcp, 6⟩
  | 0xD0 => ⟨.relative, .bne, 2⟩
  | 0xD1 => ⟨.indirect_indexed, .cmp, 5⟩
  | 0xD2 => ⟨.implied, .jam, 2⟩
  | 0xD3 => ⟨.indirect_indexed, .dcp, 8⟩
  | 0xD4 => ⟨.zero_page_x, .nop, 4⟩
  | 0xD5 => ⟨.zero_page_x, .cmp, 4⟩
  | 0xD6 => ⟨.zero_page_x, .dec, 6⟩
  | 0xD7 => ⟨.zero_page_x, .dcp, 6⟩
  | 0xD8 => ⟨.implied, .cld, 2⟩
  | 0xD9 => ⟨.absolute_y, .cmp, 4⟩
  | 0xDA => ⟨.implied, .nop, 2⟩
  | 0xDB => ⟨.absolute_y, .dcp, 7⟩
  | 0xDC => ⟨.absolute_x, .nop, 4⟩
  | 0xDD => ⟨.absolute_x, .cmp, 4⟩
  | 0xDE => ⟨.absolute_x, .dec, 7⟩
  | 0xDF => ⟨.absolute_x, .dcp, 7⟩
  | 0xE0 => ⟨.immediate, .cpx, 2⟩
  | 0xE1 => ⟨.indexed_indirect, .sbc, 6⟩
  | 0xE2 => ⟨.immediate, .nop, 2⟩
  | 0xE3 => ⟨.indexed_indirect, .isc, 8⟩
  | 0xE4 => ⟨.zero_page, .cpx, 3⟩
  | 0xE5 => ⟨.zero_page, .sbc, 3⟩
  | 0xE6 => ⟨.zero_page, .inc, 5⟩
  | 0xE7 => ⟨.zero_page, .isc, 5⟩
  | 0xE8 => ⟨.implied, .inx, 2⟩
  | 0xE9 => ⟨.immediate, .sbc, 2⟩
  | 0xEA => ⟨.implied, .nop, 2⟩
  | 0xEB => ⟨.immediate, .sbc, 2⟩
  | 0xEC => ⟨.absolute, .cpx, 4⟩
  | 0xED => ⟨.absolute, .sbc, 4⟩
  | 0xEE => ⟨.absolute, .inc, 6⟩
  | 0xEF => ⟨.absolute, .isc, 6⟩
  | 0xF0 => ⟨.relative, .beq, 2⟩
  | 0xF1 => ⟨.indirect_indexed, .sbc, 5⟩
  | 0xF2 => ⟨.implied, .jam, 2⟩
  | 0xF3 => ⟨.indirect_indexed, .isc, 8⟩
  | 0xF4 => ⟨.zero_page_x, .nop, 4⟩
  | 0xF5 => ⟨.zero_page_x, .sbc, 4⟩
  | 0xF6 => ⟨.zero_page_x, .inc, 6⟩
  | 0xF7 => ⟨.zero_page_x, .isc, 6⟩
  | 0xF8 => ⟨.implied, .sed, 2⟩
  | 0xF9 => ⟨.absolute_y, .sbc, 4⟩
  | 0xFA => ⟨.implied, .nop, 2⟩
  | 0xFB => ⟨.absolute_y, .isc, 7⟩
  | 0xFC => ⟨.absolute_x, .nop, 4⟩
  | 0xFD => ⟨.absolute_x, .sbc, 4⟩
  | 0xFE => ⟨.absolute_x, .inc, 7⟩
  | 0xFF => ⟨.absolute_x, .isc, 7⟩
  | _ => ⟨.implied, .nop, 2⟩

/-! ### Operand access and branching -/

/-- `get_operand`: the accumulator for accumulator mode, otherwise a bus
read at the effective address. -/
def get_operand (mode : AddrMode) (m : Machine) : Nat × Machine :=
  if mode = .accumulator then (m.cpu.a, m)
  else mread m m.cpu.effective_addr

/-- `put_operand`: the accumulator for accumulator mode, otherwise a bus
write at the effective address. -/
def put_operand (mode : AddrMode) (m : Machine) (value : Nat) : Machine :=
  if mode = .accumulator then { m with cpu := { m.cpu with a := u8 value } }
  else mwrite m m.cpu.effective_addr value

/-- `branch`: when taken, jump to the effective address, add one cycle,
and one more on a page crossing. -/
def branch (m : Machine) (condition : Bool) : Machine :=
  if condition then
    let old_pc := m.cpu.pc
    let m := { m with cpu := { m.cpu with pc := m.cpu.effective_addr } }
    let m := { m with cpu := { m.cpu with cycles := m.cpu.cycles + 1 } }
    if (old_pc &&& 0xFF00) ≠ (m.cpu.pc &&& 0xFF00) then
      { m with cpu := { m.cpu with cycles := m.cpu.cycles + 1 } }
    else m
  else m

/-- The addressing mode of the opcode currently being executed, as the C
ops obtain it via `opcode_table[cpu->current_opcode].addr_mode`. -/
def curMode (m : Machine) : AddrMode :=
  (opcodeTable m.cpu.current_opcode).addr_mode

/-! ### Opcode implementations -/

/-- `op_php`: push the status byte with B=1. -/
def op_php (m : Machine) : Machine :=
  push8 m (cpu6502_get_status m ||| 0x10)

/-- `op_brk`. -/
def op_brk (m : Machine) : Machine :=
  let m := { m with cpu := { m.cpu with pc := u16 (m.cpu.pc + 1) } }
  let m := push16 m m.cpu.pc
  let m := op_php m
  let m := { m with cpu := { m.cpu with flag_i := true } }
  let r := read_word m IRQ_VECTOR
  { r.2 with cpu := { r.2.cpu with pc := r.1 } }

/-- `op_bpl`. -/
def op_bpl (m : Machine) : Machine := branch m (!m.cpu.flag_n)

/-- `op_clc`. -/
def op_clc (m : Machine) : Machine :=
  { m with cpu := { m.cpu with flag_c := false } }

/-- `op_jsr`: push `PC - 1`, jump to the effective address. -/
def op_jsr (m : Machine) : Machine :=
  let m := push16 m (u16 (m.cpu.pc + 65535))
  { m with cpu := { m.cpu with pc := m.cpu.effective_addr } }

/-- `op_bit`. -/
def op_bit (m : Machine) : Machine :=
  let r := get_operand (curMode m) m
  let operand := r.1
  let m := r.2
  let m := calc_flags_zn m (m.cpu.a &&& operand)
  { m with cpu := { m.cpu with
      flag_n := (operand &&& 0x80) ≠ 0
      flag_v := (operand &&& 0x40) ≠ 0 } }

/-- `op_plp`. -/
def op_plp (m : Machine) : Machine :=
  let r := pull8 m
  cpu6502_set_status r.2 r.1

/-- `op_rol`. -/
def op_rol (m : Machine) : Machine :=
  let r := get_operand (curMode m) m
  let operand := r.1
  let m := r.2
  let result := (operand <<< 1) ||| (if m.cpu.flag_c then 1 else 0)
  let m := calc_flags_czn m result
  put_operand (curMode m) m (u8 result)

/-- `op_bmi`. -/
def op_bmi (m : Machine) : Machine := branch m m.cpu.flag_n

/-- `op_sec`. -/
def op_sec (m : Machine) : Machine :=
  { m with cpu := { m.cpu with flag_c := true } }

/-- `op_rti`. -/
def op_rti (m : Machine) : Machine :=
  let r := pull8 m
  let m := cpu6502_set_status r.2 r.1
  let r2 := pull16 m
  { r2.2 with cpu := { r2.2.cpu with pc := r2.1 } }

/-- `op_and`. -/
def op_and (m : Machine) : Machine :=
  let m := { m with cpu := { m.cpu with penalty_opcode := 1 } }
  let r := get_operand (curMode m) m
  let m := r.2
  let m := { m with cpu := { m.cpu with a := m.cpu.a &&& r.1 } }
  calc_flags_zn m m.cpu.a

/-- `op_eor`. -/
def op_eor (m : Machine) : Machine :=
  let m := { m with cpu := { m.cpu with penalty_opcode := 1 } }
  let r := get_operand (curMode m) m
  let m := r.2
  let m := { m with cpu := { m.cpu with a := m.cpu.a ^^^ r.1 } }
  calc_flags_zn m m.cpu.a

/-- `op_ora`. -/
def op_ora (m : Machine) : Machine :=
  let m := { m with cpu := { m.cpu with penalty_opcode := 1 } }
  let r := get_operand (curMode m) m
  let m := r.2
  let m := { m with cpu := { m.cpu with a := m.cpu.a ||| r.1 } }
  calc_flags_zn m m.cpu.a

/-- `op_bcc`. -/
def op_bcc (m : Machine) : Machine := branch m (!m.cpu.flag_c)

/-- `op_bcs`. -/
def op_bcs (m : Machine) : Machine := branch m m.cpu.flag_c

/-- `op_pha`. -/
def op_pha (m : Machine) : Machine := push8 m m.cpu.a

/-- `op_lsr`. -/
def op_lsr (m : Machine) : Machine :=
  let r := get_operand (curMode m) m
  let value := r.1
  let m := r.2
  let result := value >>> 1
  let m := { m with cpu := { m.cpu with flag_c := (value &&& 0x01) ≠ 0 } }
  let m := calc_flags_zn m result
  put_operand (curMode m) m result

/-- `op_jmp`. -/
def op_jmp (m : Machine) : Machine :=
  { m with cpu := { m.cpu with pc := m.cpu.effective_addr } }

/-- `op_bvc`. -/
def op_bvc (m : Machine) : Machine := branch m (!m.cpu.flag_v)

/-- `op_cli`. -/
def op_cli (m : Machine) : Machine :=
  { m with cpu := { m.cpu with flag_i := false } }

/-- `op_rts`. -/
def op_rts (m : Machine) : Machine :=
  let r := pull16 m
  { r.2 with cpu := { r.2.cpu with pc := u16 (r.1 + 1) } }

/-- `op_adc`: binary or BCD addition per the decimal flag. -/
def op_adc (m : Machine) : Machine :=
  let m := { m with cpu := { m.cpu with penalty_opcode := 1 } }
  let r := get_operand (curMode m) m
  let operand := r.1
  let m := r.2
  let result := m.cpu.a + operand + (if m.cpu.flag_c then 1 else 0)
  let m := calc_flag_z m (u8 result)
  if ¬m.cpu.flag_d then
    let m := calc_flag_c m result
    let m := calc_flag_v m result m.cpu.a operand
    let m := calc_flag_n m (u8 result)
    { m with cpu := { m.cpu with a := u8 result } }
  else
    let result := (m.cpu.a &&& 0x0F) + (operand &&& 0x0F) + (if m.cpu.flag_c then 1 else 0)
    let result := if result ≥ 0x0A then ((result + 0x06) &&& 0x0F) + 0x10 else result
    let result := result + (m.cpu.a &&& 0xF0) + (operand &&& 0xF0)
    let m := calc_flag_n m (u8 result)
    let m := calc_flag_v m result m.cpu.a operand
    let m := { m with cpu := { m.cpu with cycles := m.cpu.cycles + 1 } }
    let result := if result ≥ 0xA0 then result + 0x60 else result
    let m := calc_flag_c m result
    { m with cpu := { m.cpu with a := u8 result } }

/-- `op_pla`. -/
def op_pla (m : Machine) : Machine :=
  let r := pull8 m
  let m := { r.2 with cpu := { r.2.cpu with a := r.1 } }
  calc_flags_zn m m.cpu.a

/-- `op_ror`. -/
def op_ror (m : Machine) : Machine :=
  let r := get_operand (curMode m) m
  let value := r.1
  let m := r.2
  let result := (value >>> 1) ||| (if m.cpu.flag_c then 0x80 else 0x00)
  let m := { m with cpu := { m.cpu with flag_c := (value &&& 0x01) ≠ 0 } }
  let m := calc_flags_zn m result
  put_operand (curMode m) m result

/-- `op_bvs`. -/
def op_bvs (m : Machine) : Machine := branch m m.cpu.flag_v

/-- `op_sei`. -/
def op_sei (m : Machine) : Machine :=
  { m with cpu := { m.cpu with flag_i := true } }

/-- `op_sty`. -/
def op_sty (m : Machine) : Machine := put_operand (curMode m) m m.cpu.y

/-- `op_stx`. -/
def op_stx (m : Machine) : Machine := put_operand (curMode m) m m.cpu.x

/-- `op_dey`. -/
def op_dey (m : Machine) : Machine :=
  let m := { m with cpu := { m.cpu with y := u8 (m.cpu.y + 255) } }
  calc_flags_zn m m.cpu.y

/-- `op_txa`. -/
def op_txa (m : Machine) : Machine :=
  let m := { m with cpu := { m.cpu with a := m.cpu.x } }
  calc_flags_zn m m.cpu.a

/-- `op_sta`. -/
def op_sta (m : Machine) : Machine := put_operand (curMode m) m m.cpu.a

/-- `op_tya`. -/
def op_tya (m : Machine) : Machine :=
  let m := { m with cpu := { m.cpu with a := m.cpu.y } }
  calc_flags_zn m m.cpu.a

/-- `op_txs`. -/
def op_txs (m : Machine) : Machine :=
  { m with cpu := { m.cpu with sp := m.cpu.x } }

/-- `op_ldy`. -/
def op_ldy (m : Machine) : Machine :=
  let m := { m with cpu := { m.cpu with penalty_opcode := 1 } }
  let r := get_operand (curMode m) m
  let m := { r.2 with cpu := { r.2.cpu with y := r.1 } }
  calc_flags_zn m m.cpu.y

/-- `op_lda`. -/
def op_lda (m : Machine) : Machine :=
  let m := { m with cpu := { m.cpu with penalty_opcode := 1 } }
  let r := get_operand (curMode m) m
  let m := { r.2 with cpu := { r.2.cpu with a := r.1 } }
  calc_flags_zn m m.cpu.a

/-- `op_ldx`. -/
def op_ldx (m : Machine) : Machine :=
  let m := { m with cpu := { m.cpu with penalty_opcode := 1 } }
  let r := get_operand (curMode m) m
  let m := { r.2 with cpu := { r.2.cpu with x := r.1 } }
  calc_flags_zn m m.cpu.x

/-- `op_tay`. -/
def op_tay (m : Machine) : Machine :=
  let m := { m with cpu := { m.cpu with y := m.cpu.a } }
  calc_flags_zn m m.cpu.y

/-- `op_tsx`. -/
def op_tsx (m : Machine) : Machine :=
  let m := { m with cpu := { m.cpu with x := m.cpu.sp } }
  calc_flags_zn m m.cpu.x

/-- `op_tax`. -/
def op_tax (m : Machine) : Machine :=
  let m := { m with cpu := { m.cpu with x := m.cpu.a } }
  calc_flags_zn m m.cpu.x

/-- `op_clv`. -/
def op_clv (m : Machine) : Machine :=
  { m with cpu := { m.cpu with flag_v := false } }

/-- `op_cpy`. -/
def op_cpy (m : Machine) : Machine :=
  let r := get_operand (curMode m) m
  compare r.2 r.2.cpu.y r.1

/-- `op_cmp`. -/
def op_cmp (m : Machine) : Machine :=
  let r := get_operand (curMode m) m
  let m := compare r.2 r.2.cpu.a r.1
  { m with cpu := { m.cpu with penalty_opcode := 1 } }

/-- `op_dec`. -/
def op_dec (m : Machine) : Machine :=
  let r := get_operand (curMode m) m
  let m := r.2
  let v := u8 (r.1 + 255)
  let m := calc_flags_zn m v
  put_operand (curMode m) m v

/-- `op_iny`. -/
def op_iny (m : Machine) : Machine :=
  let m := { m with cpu := { m.cpu with y := u8 (m.cpu.y + 1) } }
  calc_flags_zn m m.cpu.y

/-- `op_dex`. -/
def op_dex (m : Machine) : Machine :=
  let m := { m with cpu := { m.cpu with x := u8 (m.cpu.x + 255) } }
  calc_flags_zn m m.cpu.x

/-- `op_bne`. -/
def op_bne (m : Machine) : Machine := branch m (!m.cpu.flag_z)

/-- `op_cld`. -/
def op_cld (m : Machine) : Machine :=
  { m with cpu := { m.cpu with flag_d := false } }

/-- `op_cpx`. -/
def op_cpx (m : Machine) : Machine :=
  let r := get_operand (curMode m) m
  compare r.2 r.2.cpu.x r.1

/-- `op_sbc`: binary subtraction through the complemented operand, with
BCD correction in decimal mode (signed 16-bit intermediates). -/
def op_sbc (m : Machine) : Machine :=
  let old_c := m.cpu.flag_c
  let m := { m with cpu := { m.cpu with penalty_opcode := 1 } }
  let r := get_operand (curMode m) m
  let operand := r.1 ^^^ 0xFF
  let m := r.2
  let result := m.cpu.a + operand + (if m.cpu.flag_c then 1 else 0)
  let m := calc_flags_czn m result
  let m := calc_flag_v m result m.cpu.a operand
  if m.cpu.flag_d then
    let al := i16wrap (((m.cpu.a &&& 0x0F : Nat) : Int)
      - (((operand ^^^ 0xFF) &&& 0x0F : Nat) : Int)
      + (if old_c then 1 else 0) - 1)
    let al := if al ≥ 0x8000 then i16wrap ((((al + 65536 - 0x06) % 65536 &&& 0x0F : Nat) : Int) - 0x10)
      else al
    let result := i16wrap (((m.cpu.a &&& 0xF0 : Nat) : Int)
      - (((operand ^^^ 0xFF) &&& 0xF0 : Nat) : Int) + (al : Int))
    let result := if result ≥ 0x8000 then i16wrap ((result : Int) - 0x60) else result
    let m := { m with cpu := { m.cpu with cycles := m.cpu.cycles + 1 } }
    { m with cpu := { m.cpu with a := u8 result } }
  else
    { m with cpu := { m.cpu with a := u8 result } }

/-- `op_inc`. -/
def op_inc (m : Machine) : Machine :=
  let r := get_operand (curMode m) m
  let m := r.2
  let result := u8 (r.1 + 1)
  let m := calc_flags_zn m result
  put_operand (curMode m) m result

/-- `op_asl`. -/
def op_asl (m : Machine) : Machine :=
  let r := get_operand (curMode m) m
  let operand := r.1
  let m := r.2
  let result := operand <<< 1
  let m := calc_flags_czn m result
  put_operand (curMode m) m (u8 result)

/-- `op_inx`. -/
def op_inx (m : Machine) : Machine :=
  let m := { m with cpu := { m.cpu with x := u8 (m.cpu.x + 1) } }
  calc_flags_zn m m.cpu.x

/-- `op_beq`. -/
def op_beq (m : Machine) : Machine := branch m m.cpu.flag_z

/-- `op_sed`. -/
def op_sed (m : Machine) : Machine :=
  { m with cpu := { m.cpu with flag_d := true } }

/-- `op_nop` (certain illegal NOP variants carry the opcode penalty). -/
def op_nop (m : Machine) : Machine :=
  if m.cpu.current_opcode = 0x1C ∨ m.cpu.current_opcode = 0x3C ∨
     m.cpu.current_opcode = 0x5C ∨ m.cpu.current_opcode = 0x7C ∨
     m.cpu.current_opcode = 0xDC ∨ m.cpu.current_opcode = 0xFC then
    { m with cpu := { m.cpu with penalty_opcode := 1 } }
  else m

/-- `op_anc`. -/
def op_anc (m : Machine) : Machine :=
  let m := op_and m
  { m with cpu := { m.cpu with flag_c := (m.cpu.a &&& 0x80) ≠ 0 } }

/-- `op_alr`. -/
def op_alr (m : Machine) : Machine :=
  let m := op_and m
  let m := { m with cpu := { m.cpu with flag_c := (m.cpu.a &&& 0x01) ≠ 0 } }
  let m := { m with cpu := { m.cpu with a := m.cpu.a >>> 1 } }
  calc_flags_zn m m.cpu.a

/-- `op_arr`: AND then ROR with the documented decimal fixups. -/
def op_arr (m : Machine) : Machine :=
  let m := op_and m
  let old_a := m.cpu.a
  let m := { m with cpu := { m.cpu with
      a := (m.cpu.a >>> 1) ||| (if m.cpu.flag_c then 0x80 else 0) } }
  let m := calc_flags_zn m m.cpu.a
  if ¬m.cpu.flag_d then
    let m := { m with cpu := { m.cpu with flag_c := (m.cpu.a &&& 0x40) ≠ 0 } }
    { m with cpu := { m.cpu with
        flag_v := xor m.cpu.flag_c (((m.cpu.a >>> 5) &&& 1) == 1) } }
  else
    let m := { m with cpu := { m.cpu with flag_v := ((m.cpu.a ^^^ old_a) &&& 0x40) ≠ 0 } }
    let m :=
      if (old_a &&& 0x0F) + (old_a &&& 0x01) > 0x05 then
        { m with cpu := { m.cpu with a := (m.cpu.a &&& 0xF0) ||| ((m.cpu.a + 0x06) &&& 0x0F) } }
      else m
    if old_a + (old_a &&& 0x10) ≥ 0x60 then
      { m with cpu := { m.cpu with a := u8 (m.cpu.a + 0x60), flag_c := true } }
    else
      { m with cpu := { m.cpu with flag_c := false } }

/-- `op_ane`. -/
def op_ane (m : Machine) : Machine :=
  let r := get_operand (curMode m) m
  let m := r.2
  let m := { m with cpu := { m.cpu with a := (m.cpu.a ||| 0xEF) &&& m.cpu.x &&& r.1 } }
  calc_flags_zn m m.cpu.a

/-- `op_lxa`. -/
def op_lxa (m : Machine) : Machine :=
  let r := get_operand (curMode m) m
  let m := r.2
  let v := (m.cpu.a ||| 0xEE) &&& r.1
  let m := { m with cpu := { m.cpu with a := v, x := v } }
  calc_flags_zn m m.cpu.a

/-- `op_sbx`. -/
def op_sbx (m : Machine) : Machine :=
  let r := get_operand (curMode m) m
  let operand := r.1
  let m := r.2
  let m := { m with cpu := { m.cpu with x := m.cpu.x &&& m.cpu.a } }
  let m := compare m m.cpu.x operand
  { m with cpu := { m.cpu with x := u8 (m.cpu.x + 256 - operand) } }

/-- `op_jam`: the KIL/JAM family freezes the CPU. -/
def op_jam (m : Machine) : Machine :=
  { m with cpu := { m.cpu with halted := true } }

/-- `op_slo`. -/
def op_slo (m : Machine) : Machine := op_ora (op_asl m)

/-- `op_rla`. -/
def op_rla (m : Machine) : Machine :=
  let m := op_and (op_rol m)
  { m with cpu := { m.cpu with penalty_opcode := 0 } }

/-- `op_sre`. -/
def op_sre (m : Machine) : Machine :=
  let m := op_eor (op_lsr m)
  { m with cpu := { m.cpu with penalty_opcode := 0 } }

/-- `op_rra`. -/
def op_rra (m : Machine) : Machine :=
  let m := op_adc (op_ror m)
  let m := { m with cpu := { m.cpu with penalty_opcode := 0 } }
  if m.cpu.flag_d then { m with cpu := { m.cpu with cycles := m.cpu.cycles - 1 } } else m

/-- `op_sax`. -/
def op_sax (m : Machine) : Machine :=
  put_operand (curMode m) m (m.cpu.a &&& m.cpu.x)

/-- `op_lax`. -/
def op_lax (m : Machine) : Machine :=
  let m := { m with cpu := { m.cpu with penalty_opcode := 1 } }
  op_ldx (op_lda m)

/-- `op_dcp`. -/
def op_dcp (m : Machine) : Machine :=
  let m := op_cmp (op_dec m)
  { m with cpu := { m.cpu with penalty_opcode := 0 } }

/-- `op_isc`. -/
def op_isc (m : Machine) : Machine :=
  let m := op_sbc (op_inc m)
  let m := { m with cpu := { m.cpu with penalty_opcode := 0 } }
  if m.cpu.flag_d then { m with cpu := { m.cpu with cycles := m.cpu.cycles - 1 } } else m

/-- `op_sha`. -/
def op_sha (m : Machine) : Machine :=
  put_operand (curMode m) m
    (u8 (m.cpu.a &&& m.cpu.x &&& (((m.cpu.effective_addr >>> 8) + 1) &&& 0xFF)))

/-- `op_shx` (with the unstable effective-address rewrite). -/
def op_shx (m : Machine) : Machine :=
  let base := u16 (m.cpu.effective_addr + 65536 - u16 m.cpu.y)
  let value := u8 (m.cpu.x &&& ((base >>> 8) + 1))
  let m :=
    if (base &&& 0xFF) + m.cpu.y > 0xFF then
      { m with cpu := { m.cpu with effective_addr := (m.cpu.effective_addr &&& 0xFF) ||| (value <<< 8) } }
    else m
  put_operand (curMode m) m value

/-- `op_shy` (with the unstable effective-address rewrite). -/
def op_shy (m : Machine) : Machine :=
  let base := u16 (m.cpu.effective_addr + 65536 - u16 m.cpu.x)
  let value := u8 (m.cpu.y &&& ((base >>> 8) + 1))
  let m :=
    if (base &&& 0xFF) + m.cpu.x > 0xFF then
      { m with cpu := { m.cpu with effective_addr := (m.cpu.effective_addr &&& 0xFF) ||| (value <<< 8) } }
    else m
  put_operand (curMode m) m value

/-- `op_tas`. -/
def op_tas (m : Machine) : Machine :=
  let m := { m with cpu := { m.cpu with sp := m.cpu.a &&& m.cpu.x } }
  put_operand (curMode m) m
    (u8 (m.cpu.sp &&& (((m.cpu.effective_addr >>> 8) + 1) &&& 0xFF)))

/-- `op_las`. -/
def op_las (m : Machine) : Machine :=
  let m := { m with cpu := { m.cpu with penalty_opcode := 1 } }
  let r := get_operand (curMode m) m
  let m := r.2
  let v := r.1 &&& m.cpu.sp
  let m := { m with cpu := { m.cpu with sp := v, a := v, x := v } }
  calc_flags_zn m m.cpu.a

/-- Dispatch an operation, as the C `opcode->opcode_func()` call does. -/
def runOp : Op → Machine → Machine
  | .brk, m => op_brk m
  | .php, m => op_php m
  | .bpl, m => op_bpl m
  | .clc, m => op_clc m
  | .jsr, m => op_jsr m
  | .bit, m => op_bit m
  | .plp, m => op_plp m
  | .rol, m => op_rol m
  | .bmi, m => op_bmi m
  | .sec, m => op_sec m
  | .rti, m => op_rti m
  | .and, m => op_and m
  | .eor, m => op_eor m
  | .ora, m => op_ora m
  | .bcc, m => op_bcc m
  | .bcs, m => op_bcs m
  | .pha, m => op_pha m
  | .lsr, m => op_lsr m
  | .jmp, m => op_jmp m
  | .bvc, m => op_bvc m
  | .cli, m => op_cli m
  | .rts, m => op_rts m
  | .adc, m => op_adc m
  | .pla, m => op_pla m
  | .ror, m => op_ror m
  | .bvs, m => op_bvs m
  | .sei, m => op_sei m
  | .sty, m => op_sty m
  | .stx, m => op_stx m
  | .dey, m => op_dey m
  | .txa, m => op_txa m
  | .sta, m => op_sta m
  | .tya, m => op_tya m
  | .txs, m => op_txs m
  | .ldy, m => op_ldy m
  | .lda, m => op_lda m
  | .ldx, m => op_ldx m
  | .tay, m => op_tay m
  | .tsx, m => op_tsx m
  | .tax, m => op_tax m
  | .clv, m => op_clv m
  | .cpy, m => op_cpy m
  | .cmp, m => op_cmp m
  | .dec, m => op_dec m
  | .iny, m => op_iny m
  | .dex, m => op_dex m
  | .bne, m => op_bne m
  | .cld, m => op_cld m
  | .cpx, m => op_cpx m
  | .sbc, m => op_sbc m
  | .inc, m => op_inc m
  | .asl, m => op_asl m
  | .inx, m => op_inx m
  | .beq, m => op_beq m
  | .sed, m => op_sed m
  | .nop, m => op_nop m
  | .anc, m => op_anc m
  | .alr, m => op_alr m
  | .arr, m => op_arr m
  | .ane, m => op_ane m
  | .lxa, m => op_lxa m
  | .sbx, m => op_sbx m
  | .jam, m => op_jam m
  | .slo, m => op_slo m
  | .rla, m => op_rla m
  | .sre, m => op_sre m
  | .rra, m => op_rra m
  | .sax, m => op_sax m
  | .lax, m => op_lax m
  | .dcp, m => op_dcp m
  | .isc, m => op_isc m
  | .sha, m => op_sha m
  | .shx, m => op_shx m
  | .shy, m => op_shy m
  | .tas, m => op_tas m
  | .las, m => op_las m

/-- `cpu6502_step`: when halted return 0 cycles and leave the machine
untouched; otherwise fetch, dispatch through the table, run the
addressing mode and the operation, apply the joint penalty, and return
the machine with the consumed cycle count.  (The C NULL-entry check is
dead code — `opcode_table_init` fills all 256 entries — and the pacing
loop only waits on the wall clock.) -/
def cpu6502_step (m : Machine) : Machine × Nat :=
  if m.cpu.halted then (m, 0)
  else
    let r := mread m m.cpu.pc
    let opcode_byte := r.1
    let m := r.2
    let m := { m with cpu := { m.cpu with
        pc := u16 (m.cpu.pc + 1)
        current_opcode := u8 opcode_byte
        penalty_opcode := 0
        penalty_address := 0 } }
    let opcode := opcodeTable m.cpu.current_opcode
    let m := { m with cpu := { m.cpu with cycles := opcode.cycles } }
    let m := runAddrMode opcode.addr_mode m
    let m := runOp opcode.opcode_func m
    let m :=
      if m.cpu.penalty_opcode ≠ 0 ∧ m.cpu.penalty_address ≠ 0 then
        { m with cpu := { m.cpu with cycles := m.cpu.cycles + 1 } }
      else m
    (m, m.cpu.cycles)

/-! ## Verified properties -/

/-- C2: packing the six flags with `cpu6502_get_status` and unpacking
with `cpu6502_set_status` restores exactly the same six flags, and the
packed byte always has bit 5 set and bit 4 clear. -/
theorem status_roundtrip_c2 (m : Machine) :
    (cpu6502_set_status m (cpu6502_get_status m)).cpu.flag_c = m.cpu.flag_c ∧
    (cpu6502_set_status m (cpu6502_get_status m)).cpu.flag_z = m.cpu.flag_z ∧
    (cpu6502_set_status m (cpu6502_get_status m)).cpu.flag_i = m.cpu.flag_i ∧
    (cpu6502_set_status m (cpu6502_get_status m)).cpu.flag_d = m.cpu.flag_d ∧
    (cpu6502_set_status m (cpu6502_get_status m)).cpu.flag_v = m.cpu.flag_v ∧
    (cpu6502_set_status m (cpu6502_get_status m)).cpu.flag_n = m.cpu.flag_n ∧
    cpu6502_get_status m &&& 0x20 = 0x20 ∧
    cpu6502_get_status m &&& 0x10 = 0 := by
  obtain ⟨⟨a, x, y, sp, pc, st, fc, fz, fi, fd, fv, fn, ea, co, po, pa, cy, ha⟩, bus⟩ := m
  cases fc <;> cases fz <;> cases fi <;> cases fd <;> cases fv <;> cases fn <;>
    simp [cpu6502_get_status, cpu6502_set_status] <;> decide

theorem u8_lt (n : Nat) : u8 n < 256 := Nat.mod_lt _ (by norm_num)

theorem u16_eq_of_lt {n : Nat} (h : n < 65536) : u16 n = n := Nat.mod_eq_of_lt h

set_option maxRecDepth 8192 in
/-- Masking a byte with `0xFF` is the identity. -/
theorem and255_eq {n : Nat} (h : n < 256) : n &&& 0xFF = n := by
  have hx : ∀ x : Fin 256, ((x : Nat) &&& 0xFF) = (x : Nat) := by decide
  exact hx ⟨n, h⟩

/-- Every bus write prepends exactly its (16-bit-wrapped) address to the
ghost access log. -/
theorem bus_write_accesses (b : Bus) (a v : Nat) :
    (bus_write_memory b a v).accesses = u16 a :: b.accesses := by
  unfold bus_write_memory
  dsimp only
  repeat' split
  all_goals rfl

/-- Every bus read prepends exactly its (16-bit-wrapped) address to the
ghost access log. -/
theorem bus_read_accesses (b : Bus) (a : Nat) :
    (bus_read_memory b a).2.accesses = u16 a :: b.accesses := by
  unfold bus_read_memory
  dsimp only
  repeat' split
  all_goals rfl

/-- C9: for every starting stack pointer, the stack helpers `push8`,
`pull8`, `push16` and `pull16` access exactly the listed addresses, all
of which lie in the stack page `[$0100, $01FF]` (the SP arithmetic wraps
modulo 256, so pages 0 and 2 are never touched). -/
theorem stack_page_c9 (m : Machine) (v : Nat) (h : m.cpu.sp < 256) :
    ((push8 m v).bus.accesses = (STACK_BASE + m.cpu.sp) :: m.bus.accesses ∧
      0x0100 ≤ STACK_BASE + m.cpu.sp ∧ STACK_BASE + m.cpu.sp ≤ 0x01FF) ∧
    ((pull8 m).2.bus.accesses = (STACK_BASE + u8 (m.cpu.sp + 1)) :: m.bus.accesses ∧
      0x0100 ≤ STACK_BASE + u8 (m.cpu.sp + 1) ∧ STACK_BASE + u8 (m.cpu.sp + 1) ≤ 0x01FF) ∧
    ((push16 m v).bus.accesses =
        (STACK_BASE + u8 (m.cpu.sp + 255)) :: (STACK_BASE + m.cpu.sp) :: m.bus.accesses ∧
      0x0100 ≤ STACK_BASE + u8 (m.cpu.sp + 255) ∧ STACK_BASE + u8 (m.cpu.sp + 255) ≤ 0x01FF) ∧
    ((pull16 m).2.bus.accesses =
        (STACK_BASE + (u8 (m.cpu.sp + 2) &&& 0xFF)) ::
          (STACK_BASE + u8 (u8 (m.cpu.sp + 2) + 255)) :: m.bus.accesses ∧
      0x0100 ≤ STACK_BASE + (u8 (m.cpu.sp + 2) &&& 0xFF) ∧
        STACK_BASE + (u8 (m.cpu.sp + 2) &&& 0xFF) ≤ 0x01FF ∧
      0x0100 ≤ STACK_BASE + u8 (u8 (m.cpu.sp + 2) + 255) ∧
        STACK_BASE + u8 (u8 (m.cpu.sp + 2) + 255) ≤ 0x01FF) := by
  have hb1 : u8 (m.cpu.sp + 1) < 256 := u8_lt _
  have hb255 : u8 (m.cpu.sp + 255) < 256 := u8_lt _
  have hb2 : u8 (m.cpu.sp + 2) < 256 := u8_lt _
  have hb2' : u8 (u8 (m.cpu.sp + 2) + 255) < 256 := u8_lt _
  have hand : u8 (m.cpu.sp + 2) &&& 0xFF = u8 (m.cpu.sp + 2) := and255_eq hb2
  have hSB : STACK_BASE = 0x0100 := rfl
  refine ⟨⟨?_, by rw [hSB]; omega, by rw [hSB]; omega⟩,
          ⟨?_, by rw [hSB]; omega, by rw [hSB]; omega⟩,
          ⟨?_, by rw [hSB]; omega, by rw [hSB]; omega⟩,
          ⟨?_, by rw [hand, hSB]; omega, by rw [hand, hSB]; omega,
            by rw [hSB]; omega, by rw [hSB]; omega⟩⟩
  · simp only [push8, mwrite, bus_write_accesses]
    rw [u16_eq_of_lt (by rw [hSB]; omega)]
  · simp only [pull8, mread, bus_read_accesses]
    rw [u16_eq_of_lt (by rw [hSB]; omega)]
  · simp only [push16, mwrite, bus_write_accesses]
    rw [u16_eq_of_lt (by rw [hSB]; omega),
        u16_eq_of_lt (by rw [hSB]; omega)]
  · simp only [pull16, mread, bus_read_accesses]
    rw [u16_eq_of_lt (by rw [hSB]; omega),
        u16_eq_of_lt (by rw [hSB]; omega)]

/-- The concrete machine used to witness the stack-page property: a
freshly initialized CPU (SP = `$FD`) over a bare 64 KiB RAM bus. -/
def mach9 : Machine :=
  { cpu := { a := 0, x := 0, y := 0, sp := 0xFD, pc := 0x0400, status := 0
             flag_c := false, flag_z := false, flag_i := false, flag_d := false
             flag_v := false, flag_n := false, effective_addr := 0
             current_opcode := 0, penalty_opcode := 0, penalty_address := 0
             cycles := 0, halted := false }
    bus := { memory := { data := fun _ => 0, size := 65536 }
             tia := none, acia := none, via := none
             clock_disabled := true, accesses := [] } }

theorem stack_page_c9_witness :
    mach9.cpu.sp < 256 ∧
    (push8 mach9 0x42).bus.accesses = [0x01FD] ∧
    (pull16 mach9).2.bus.accesses = [0x01FF, 0x01FE] :=
  ⟨by decide,
    by
      have h := (stack_page_c9 mach9 0x42 (by decide)).1.1
      simpa using h,
    by
      have h := (stack_page_c9 mach9 0x42 (by decide)).2.2.2.1
      simpa using h⟩

/-- C5 (the right half of the playfield): for every TIA state and every
pixel `80 ≤ x < 160`, `get_playfield_pixel` returns PF2 bit 0 — the
index is clamped to 19 before the reflection test, so the `CTRLPF`
reflect bit has no effect and the 20-bit field is never consulted at the
index the spec prescribes. -/
theorem playfield_right_half_c5 (t : TIA) (x : Nat) (h80 : 80 ≤ x) (h160 : x < 160) :
    get_playfield_pixel t x = decide ((t.pf2 &&& 1) ≠ 0) := by
  unfold get_playfield_pixel
  have h1 : x / 4 > 19 := by omega
  simp [h1]

/-- The TIA state of the C5 counterexample: reflection enabled
(`CTRLPF = $01`) and `PF2 = $02`, so at `x = 84` the specified mirrored
index 39 − 84/4 = 18 selects PF2 bit 1 (set), yet the code returns PF2
bit 0 (clear). -/
def tia_c5 : TIA := tia_write (tia_write (tia_init 0) 0x0A 0x01) 0x0F 0x02

theorem playfield_right_half_c5_witness :
    80 ≤ 84 ∧ 84 < 160 ∧ (tia_c5.ctrlpf &&& 1 ≠ 0) ∧
    tia_c5.pf2 &&& (1 <<< (19 - (39 - 84 / 4))) ≠ 0 ∧
    get_playfield_pixel tia_c5 84 = decide ((tia_c5.pf2 &&& 1) ≠ 0) ∧
    get_playfield_pixel tia_c5 84 = false :=
  ⟨by decide, by decide, by decide, by decide,
    playfield_right_half_c5 tia_c5 84 (by decide) (by decide),
    by decide⟩

/-- The first component of an explicit pair.  (Used instead of `rfl` so
that neither the elaborator nor the kernel tries to reduce stuck modular
arithmetic inside the components.) -/
theorem prod_fst_mk {α β : Type} (a : α) (b : β) : (Prod.mk a b).fst = a := rfl

/-- C1: with TIA, ACIA and VIA attached, `bus_read_memory` decodes by
first match — TIA for `a ≤ $3F` (mirrored via `a & $3F`), ACIA for
`$D000–$D00F`, VIA for `$6000–$600F`, then RAM below the configured
size, else `$FF` — and `bus_write_memory` decodes in the same order,
with a write that matches nothing and lies outside RAM a no-op. -/
theorem bus_decode_c1 (b : Bus) (address value : Nat)
    (haddr : address < 65536) (hval : value < 256)
    (ht : b.tia.isSome) (ha : b.acia.isSome) (hvia : b.via.isSome) :
    ((bus_read_memory b address).1 =
      if address ≤ TIA_END_ADDRESS then (b.tia.get ht).registers (address &&& 0x3F)
      else if ACIA_START_ADDRESS ≤ address ∧ address ≤ ACIA_END_ADDRESS then
        (acia_read (b.acia.get ha) address).1
      else if VIA_BASE_ADDRESS ≤ address ∧ address ≤ VIA_END_ADDRESS then
        (via_read (b.via.get hvia) address).1
      else if address < b.memory.size then memory_read b.memory address
      else 0xFF) ∧
    (address ≤ TIA_END_ADDRESS →
      bus_write_memory b address value =
        { b with accesses := address :: b.accesses
                 tia := some (tia_write (b.tia.get ht) address value) }) ∧
    (ACIA_START_ADDRESS ≤ address ∧ address ≤ ACIA_END_ADDRESS →
      bus_write_memory b address value =
        { b with accesses := address :: b.accesses
                 acia := some (acia_write (b.acia.get ha) address value) }) ∧
    (VIA_BASE_ADDRESS ≤ address ∧ address ≤ VIA_END_ADDRESS →
      bus_write_memory b address value =
        { b with accesses := address :: b.accesses
                 via := some (via_write (b.via.get hvia) address value) }) ∧
    (¬address ≤ TIA_END_ADDRESS →
      ¬(ACIA_START_ADDRESS ≤ address ∧ address ≤ ACIA_END_ADDRESS) →
      ¬(VIA_BASE_ADDRESS ≤ address ∧ address ≤ VIA_END_ADDRESS) →
      address < b.memory.size →
      bus_write_memory b address value =
        { b with accesses := address :: b.accesses
                 memory := memory_write b.memory address value }) ∧
    (¬address ≤ TIA_END_ADDRESS →
      ¬(ACIA_START_ADDRESS ≤ address ∧ address ≤ ACIA_END_ADDRESS) →
      ¬(VIA_BASE_ADDRESS ≤ address ∧ address ≤ VIA_END_ADDRESS) →
      b.memory.size ≤ address →
      bus_write_memory b address value = { b with accesses := address :: b.accesses }) := by
  have hu : u16 address = address := u16_eq_of_lt haddr
  have hv8 : u8 value = value := Nat.mod_eq_of_lt hval
  obtain ⟨t, hbt⟩ := Option.isSome_iff_exists.mp ht
  obtain ⟨ac, hba⟩ := Option.isSome_iff_exists.mp ha
  obtain ⟨vi, hbv⟩ := Option.isSome_iff_exists.mp hvia
  have hTA : ∀ a : Nat, ACIA_START_ADDRESS ≤ a ∧ a ≤ ACIA_END_ADDRESS →
      ¬a ≤ TIA_END_ADDRESS := by
    intro a hr
    simp only [ACIA_START_ADDRESS, ACIA_END_ADDRESS, TIA_END_ADDRESS] at *
    omega
  have hTV : ∀ a : Nat, VIA_BASE_ADDRESS ≤ a ∧ a ≤ VIA_END_ADDRESS →
      ¬a ≤ TIA_END_ADDRESS := by
    intro a hr
    simp only [VIA_BASE_ADDRESS, VIA_END_ADDRESS, TIA_END_ADDRESS] at *
    omega
  have hAV : ∀ a : Nat, VIA_BASE_ADDRESS ≤ a ∧ a ≤ VIA_END_ADDRESS →
      ¬(ACIA_START_ADDRESS ≤ a ∧ a ≤ ACIA_END_ADDRESS) := by
    intro a hr
    simp only [ACIA_START_ADDRESS, ACIA_END_ADDRESS, VIA_BASE_ADDRESS, VIA_END_ADDRESS] at *
    omega
  refine ⟨?_, ?_, ?_, ?_, ?_, ?_⟩
  · unfold bus_read_memory
    dsimp only
    simp only [hbt, hba, hbv, hu, Option.isSome_some, Option.get_some, true_and,
      dite_eq_ite, tia_read]
    split_ifs
    all_goals exact prod_fst_mk _ _
  · intro h1
    unfold bus_write_memory
    dsimp only
    simp only [hbt, hba, hbv, hu, hv8, Option.isSome_some, Option.get_some, true_and,
      dite_eq_ite]
    rw [if_pos h1]
  · intro h2
    unfold bus_write_memory
    dsimp only
    simp only [hbt, hba, hbv, hu, hv8, Option.isSome_some, Option.get_some, true_and,
      dite_eq_ite]
    rw [if_neg (hTA address h2), if_pos h2]
  · intro h3
    unfold bus_write_memory
    dsimp only
    simp only [hbt, hba, hbv, hu, hv8, Option.isSome_some, Option.get_some, true_and,
      dite_eq_ite]
    rw [if_neg (hTV address h3), if_neg (hAV address h3), if_pos h3]
  · intro h1 h2 h3 h4
    unfold bus_write_memory
    dsimp only
    simp only [hbt, hba, hbv, hu, hv8, Option.isSome_some, Option.get_some, true_and,
      dite_eq_ite]
    rw [if_neg h1, if_neg h2, if_neg h3, if_pos h4]
  · intro h1 h2 h3 h4
    unfold bus_write_memory
    dsimp only
    simp only [hbt, hba, hbv, hu, hv8, Option.isSome_some, Option.get_some, true_and,
      dite_eq_ite]
    rw [if_neg h1, if_neg h2, if_neg h3, if_neg (by omega)]

/-- The concrete bus used to witness the decode property: 32 KiB of RAM
with all three devices attached. -/
def bus1 : Bus :=
  { memory := { data := fun _ => 0, size := 0x8000 }
    tia := some (tia_init 0)
    acia := some acia_init
    via := some via_init
    clock_disabled := true
    accesses := [] }

theorem bus_decode_c1_witness :
    0xD005 < 65536 ∧ 0x41 < 256 ∧
    (bus_read_memory bus1 0xD005).1 =
      (if 0xD005 ≤ TIA_END_ADDRESS then (bus1.tia.get (by decide)).registers (0xD005 &&& 0x3F)
       else if ACIA_START_ADDRESS ≤ 0xD005 ∧ 0xD005 ≤ ACIA_END_ADDRESS then
         (acia_read (bus1.acia.get (by decide)) 0xD005).1
       else if VIA_BASE_ADDRESS ≤ 0xD005 ∧ 0xD005 ≤ VIA_END_ADDRESS then
         (via_read (bus1.via.get (by decide)) 0xD005).1
       else if 0xD005 < bus1.memory.size then memory_read bus1.memory 0xD005
       else 0xFF) :=
  ⟨by decide, by decide,
    (bus_decode_c1 bus1 0xD005 0x41 (by decide) (by decide) (by decide) (by decide)
      (by decide)).1⟩

/-- The second component of an explicit pair (companion of
`prod_fst_mk`). -/
theorem prod_snd_mk {α β : Type} (a : α) (b : β) : (Prod.mk a b).snd = b := rfl

/-- The value returned by a CPU bus read is the value returned by the
underlying bus read. -/
theorem mread_fst (m : Machine) (a : Nat) :
    (mread m a).1 = (bus_read_memory m.bus a).1 := by
  unfold mread
  dsimp only

/-- A CPU bus read leaves the CPU registers untouched. -/
theorem mread_snd_cpu (m : Machine) (a : Nat) : (mread m a).2.cpu = m.cpu := rfl

/-- Executing one step from a state whose fetched byte dispatches to
`op_jam` (implied mode, 2 cycles) halts the CPU. -/
theorem step_jam_of_entry (m : Machine) (h : m.cpu.halted = false) (b : Nat)
    (hb : (bus_read_memory m.bus m.cpu.pc).1 = b)
    (he : opcodeTable (u8 b) = ⟨.implied, .jam, 2⟩) :
    (cpu6502_step m).1.cpu.halted = true := by
  unfold cpu6502_step
  rw [if_neg (by simp [h])]
  dsimp only
  rw [mread_fst, hb, mread_snd_cpu, he]
  simp [runAddrMode, runOp, op_jam]

/-- C3: every JAM/KIL opcode ($02, $12, $22, $32, $42, $52, $62, $72,
$92, $B2, $D2, $F2) sets the CPU's halted flag when executed, and once
the halted flag is set every call to `cpu6502_step` returns 0 cycles and
leaves the entire machine state (CPU registers, flags, and the whole
bus, memory included) unchanged. -/
theorem jam_halts_c3 :
    (∀ m : Machine, m.cpu.halted = true → cpu6502_step m = (m, 0)) ∧
    (∀ m : Machine, m.cpu.halted = false →
      (bus_read_memory m.bus m.cpu.pc).1 = 0x02 ∨
      (bus_read_memory m.bus m.cpu.pc).1 = 0x12 ∨
      (bus_read_memory m.bus m.cpu.pc).1 = 0x22 ∨
      (bus_read_memory m.bus m.cpu.pc).1 = 0x32 ∨
      (bus_read_memory m.bus m.cpu.pc).1 = 0x42 ∨
      (bus_read_memory m.bus m.cpu.pc).1 = 0x52 ∨
      (bus_read_memory m.bus m.cpu.pc).1 = 0x62 ∨
      (bus_read_memory m.bus m.cpu.pc).1 = 0x72 ∨
      (bus_read_memory m.bus m.cpu.pc).1 = 0x92 ∨
      (bus_read_memory m.bus m.cpu.pc).1 = 0xB2 ∨
      (bus_read_memory m.bus m.cpu.pc).1 = 0xD2 ∨
      (bus_read_memory m.bus m.cpu.pc).1 = 0xF2 →
      (cpu6502_step m).1.cpu.halted = true) := by
  constructor
  · intro m h
    unfold cpu6502_step
    rw [if_pos h]
  · intro m h hm
    rcases hm with hb | hb | hb | hb | hb | hb | hb | hb | hb | hb | hb | hb <;>
      exact step_jam_of_entry m h _ hb (by rfl)

/-- The halted machine used to witness C3. -/
def mach3h : Machine :=
  { mach9 with cpu := { mach9.cpu with halted := true } }

/-- A machine whose memory is filled with the JAM opcode $02. -/
def mach3j : Machine :=
  { mach9 with bus := { mach9.bus with memory := { data := fun _ => 0x02, size := 65536 } } }

theorem jam_halts_c3_witness :
    (mach3h.cpu.halted = true ∧ cpu6502_step mach3h = (mach3h, 0)) ∧
    (mach3j.cpu.halted = false ∧ (bus_read_memory mach3j.bus mach3j.cpu.pc).1 = 0x02 ∧
      (cpu6502_step mach3j).1.cpu.halted = true) :=
  ⟨⟨rfl, jam_halts_c3.1 mach3h rfl⟩,
    ⟨rfl, by decide, jam_halts_c3.2 mach3j rfl (Or.inl (by decide))⟩⟩


/-- `tia_check_collisions` only latches collision flags: the beam
counters and frame bookkeeping are untouched. -/
theorem tia_check_collisions_counters (t : TIA) (x : Nat) (p0 p1 pf : Bool) :
    (tia_check_collisions t x p0 p1 pf).color_clock = t.color_clock ∧
    (tia_check_collisions t x p0 p1 pf).scanline = t.scanline ∧
    (tia_check_collisions t x p0 p1 pf).frame_done = t.frame_done ∧
    (tia_check_collisions t x p0 p1 pf).frame_count = t.frame_count := by
  unfold tia_check_collisions
  dsimp only
  split_ifs <;> exact ⟨rfl, rfl, rfl, rfl⟩

/-- `tia_render_pixel` only writes the framebuffer and collision
latches: the beam counters and frame bookkeeping are untouched. -/
theorem tia_render_pixel_counters (t : TIA) :
    (tia_render_pixel t).color_clock = t.color_clock ∧
    (tia_render_pixel t).scanline = t.scanline ∧
    (tia_render_pixel t).frame_done = t.frame_done ∧
    (tia_render_pixel t).frame_count = t.frame_count := by
  unfold tia_render_pixel
  dsimp only
  split
  · exact ⟨rfl, rfl, rfl, rfl⟩
  · split
    · exact ⟨rfl, rfl, rfl, rfl⟩
    · split
      · exact ⟨rfl, rfl, rfl, rfl⟩
      · split
        · exact ⟨rfl, rfl, rfl, rfl⟩
        · exact tia_check_collisions_counters _ _ _ _ _

/-- The counter/frame effect of a single `tia_cycle`, in closed form. -/
theorem tia_cycle_counters (t : TIA) :
    (tia_cycle t).color_clock =
      (if t.color_clock + 1 ≥ 228 then 0 else t.color_clock + 1) ∧
    (tia_cycle t).scanline =
      (if t.color_clock + 1 ≥ 228 then
        (if t.scanline + 1 ≥ 262 then 0 else t.scanline + 1) else t.scanline) ∧
    (tia_cycle t).frame_done =
      (if t.color_clock + 1 ≥ 228 ∧ t.scanline + 1 ≥ 262 then true else t.frame_done) ∧
    (tia_cycle t).frame_count =
      (if t.color_clock + 1 ≥ 228 ∧ t.scanline + 1 ≥ 262 then t.frame_count + 1
       else t.frame_count) := by
  obtain ⟨h1, h2, h3, h4⟩ := tia_render_pixel_counters t
  unfold tia_cycle
  dsimp only
  simp only [h1, h2, h3, h4, TIA_CYCLES_PER_SCANLINE, TIA_SCANLINES_PER_FRAME]
  split_ifs <;> simp_all

/-- Closed form of the beam state after `k ≤ 228·262` TIA cycles from
the top of a frame. -/
theorem tia_iterate_state (t : TIA) (hc : t.color_clock = 0) (hs : t.scanline = 0)
    (hf : t.frame_done = false) :
    ∀ k, k ≤ 228 * 262 →
      (tia_cycle^[k] t).color_clock = k % 228 ∧
      (tia_cycle^[k] t).scanline = (k / 228) % 262 ∧
      (tia_cycle^[k] t).frame_done = decide (k = 228 * 262) ∧
      (tia_cycle^[k] t).frame_count = t.frame_count + k / (228 * 262) := by
  intro k
  induction k with
  | zero => intro _; simp [hc, hs, hf]
  | succ k ih =>
    intro hk
    obtain ⟨ih1, ih2, ih3, ih4⟩ := ih (by omega)
    rw [Function.iterate_succ_apply']
    obtain ⟨c1, c2, c3, c4⟩ := tia_cycle_counters (tia_cycle^[k] t)
    rw [c1, c2, c3, c4, ih1, ih2, ih3, ih4]
    have hklt : k < 228 * 262 := by omega
    refine ⟨?_, ?_, ?_, ?_⟩
    · split_ifs with h1 <;> omega
    · split_ifs with h1 h2 <;> omega
    · split_ifs with h1
      · have : k + 1 = 228 * 262 := by omega
        simp [this]
      · have h2 : ¬(k = 228 * 262) := by omega
        have h3 : ¬(k + 1 = 228 * 262) := by omega
        simp [h2, h3]
    · split_ifs with h1 <;> omega

/-- C4: from `(color_clock, scanline) = (0, 0)` with `frame_done` clear,
after exactly 228 × 262 NTSC calls to `tia_cycle` (no intervening
register writes) `frame_done` has been raised exactly once — it is still
clear after every shorter prefix and set after the full frame —
`frame_count` grew by exactly one, the beam is back at `(0, 0)`, and
throughout the run `color_clock < 228` and `scanline < 262`. -/
theorem tia_frame_cadence_c4 (t : TIA) (hc : t.color_clock = 0) (hs : t.scanline = 0)
    (hf : t.frame_done = false) :
    (∀ k, k < 228 * 262 →
      (tia_cycle^[k] t).frame_done = false ∧
      (tia_cycle^[k] t).color_clock < 228 ∧
      (tia_cycle^[k] t).scanline < 262) ∧
    (tia_cycle^[228 * 262] t).color_clock = 0 ∧
    (tia_cycle^[228 * 262] t).scanline = 0 ∧
    (tia_cycle^[228 * 262] t).frame_done = true ∧
    (tia_cycle^[228 * 262] t).frame_count = t.frame_count + 1 := by
  constructor
  · intro k hk
    obtain ⟨h1, h2, h3, h4⟩ := tia_iterate_state t hc hs hf k (by omega)
    refine ⟨?_, ?_, ?_⟩
    · rw [h3]
      simp only [decide_eq_false_iff_not]
      omega
    · rw [h1]
      exact Nat.mod_lt _ (by norm_num)
    · rw [h2]
      exact Nat.mod_lt _ (by norm_num)
  · obtain ⟨h1, h2, h3, h4⟩ := tia_iterate_state t hc hs hf (228 * 262) (by omega)
    refine ⟨by rw [h1], by rw [h2], by rw [h3]; simp, by rw [h4]⟩

theorem tia_frame_cadence_c4_witness :
    (tia_init 0).color_clock = 0 ∧ (tia_init 0).scanline = 0 ∧
    (tia_init 0).frame_done = false ∧
    (tia_cycle^[228 * 262] (tia_init 0)).frame_done = true :=
  ⟨rfl, rfl, rfl, (tia_frame_cadence_c4 (tia_init 0) rfl rfl rfl).2.2.2.1⟩


set_option maxRecDepth 8192 in
/-- `n &&& 0x0F` is `n % 16` for bytes. -/
theorem and15_eq {n : Nat} (h : n < 256) : n &&& 0x0F = n % 16 := by
  have hx : ∀ x : Fin 256, ((x : Nat) &&& 0x0F) = (x : Nat) % 16 := by decide
  exact hx ⟨n, h⟩

set_option maxRecDepth 8192 in
/-- `n &&& 0xF0` isolates the high nibble for bytes. -/
theorem and240_eq {n : Nat} (h : n < 256) : n &&& 0xF0 = n / 16 * 16 := by
  have hx : ∀ x : Fin 256, ((x : Nat) &&& 0xF0) = (x : Nat) / 16 * 16 := by decide
  exact hx ⟨n, h⟩

/-- The value fetched by `get_operand`: the accumulator in accumulator
mode, otherwise the bus byte at the effective address. -/
theorem get_operand_fst (md : AddrMode) (m : Machine) :
    (get_operand md m).1 =
      if md = AddrMode.accumulator then m.cpu.a
      else (bus_read_memory m.bus m.cpu.effective_addr).1 := by
  unfold get_operand
  split
  · rfl
  · exact mread_fst m _

/-- `get_operand` never changes the CPU registers. -/
theorem get_operand_snd_cpu (md : AddrMode) (m : Machine) :
    (get_operand md m).2.cpu = m.cpu := by
  unfold get_operand
  split
  · rfl
  · exact mread_snd_cpu m _

set_option maxHeartbeats 4000000 in
/-- C6 (amended): for BCD-valid operands — both nibbles of A and of the
operand at most 9 — and either carry-in, ADC in decimal mode yields an
accumulator whose low nibble is below `$0A` and whose high nibble is
below `$A0`. -/
theorem adc_bcd_closure_c6 (m : Machine)
    (hd : m.cpu.flag_d = true)
    (ha : m.cpu.a < 256) (ha1 : m.cpu.a &&& 0x0F ≤ 9) (ha2 : m.cpu.a >>> 4 ≤ 9)
    (hv : (bus_read_memory m.bus m.cpu.effective_addr).1 < 256)
    (hv1 : (bus_read_memory m.bus m.cpu.effective_addr).1 &&& 0x0F ≤ 9)
    (hv2 : (bus_read_memory m.bus m.cpu.effective_addr).1 >>> 4 ≤ 9) :
    (op_adc m).cpu.a &&& 0x0F < 0x0A ∧ (op_adc m).cpu.a &&& 0xF0 < 0xA0 := by
  rw [and15_eq ha] at ha1
  rw [and15_eq hv] at hv1
  rw [Nat.shiftRight_eq_div_pow] at ha2 hv2
  norm_num at ha2 hv2
  unfold op_adc
  dsimp only
  simp only [get_operand_fst, get_operand_snd_cpu, calc_flag_z, calc_flag_n, calc_flag_v,
    calc_flag_c, curMode]
  rw [hd]
  rw [if_neg (show ¬¬(true = true) from fun h => h rfl)]
  dsimp only
  by_cases hmode : (opcodeTable m.cpu.current_opcode).addr_mode = AddrMode.accumulator
  · rw [if_pos hmode]
    generalize hcg : (if m.cpu.flag_c = true then (1 : Nat) else 0) = c1
    have hc1 : c1 ≤ 1 := by rw [← hcg]; split <;> omega
    rw [and15_eq ha, and240_eq ha]
    have h6 : m.cpu.a % 16 + m.cpu.a % 16 + c1 + 6 < 256 := by omega
    rw [and15_eq h6]
    rw [and15_eq (u8_lt _), and240_eq (u8_lt _)]
    simp only [u8]
    split_ifs <;> omega
  · rw [if_neg hmode]
    generalize hcg : (if m.cpu.flag_c = true then (1 : Nat) else 0) = c1
    have hc1 : c1 ≤ 1 := by rw [← hcg]; split <;> omega
    rw [and15_eq ha, and240_eq ha, and15_eq hv, and240_eq hv]
    have h6 : m.cpu.a % 16 + (bus_read_memory m.bus m.cpu.effective_addr).1 % 16 + c1 + 6
        < 256 := by omega
    rw [and15_eq h6]
    rw [and15_eq (u8_lt _), and240_eq (u8_lt _)]
    simp only [u8]
    split_ifs <;> omega


/-- The machine of the C6 counterexample: decimal mode, `A = $0F`
(a non-BCD low nibble), immediate ADC of the byte `$05`, carry clear. -/
def mach6 : Machine :=
  { cpu := { a := 0x0F, x := 0, y := 0, sp := 0xFD, pc := 0x0400, status := 0
             flag_c := false, flag_z := false, flag_i := false, flag_d := true
             flag_v := false, flag_n := false, effective_addr := 0
             current_opcode := 0x69, penalty_opcode := 0, penalty_address := 0
             cycles := 2, halted := false }
    bus := { memory := { data := fun _ => 0x05, size := 65536 }
             tia := none, acia := none, via := none
             clock_disabled := true, accesses := [] } }

/-- C6 counterexample: with D=1, A=$0F, M=$05, C=0 the decimal ADC
leaves `A = $1A`, whose low nibble `$A` is not below `$0A` — the claim
fails for operands that are not valid BCD. -/
theorem adc_bcd_closure_c6_cex :
    mach6.cpu.flag_d = true ∧ mach6.cpu.a = 0x0F ∧ mach6.cpu.flag_c = false ∧
    (bus_read_memory mach6.bus mach6.cpu.effective_addr).1 = 0x05 ∧
    (op_adc mach6).cpu.a = 0x1A ∧
    ¬((op_adc mach6).cpu.a &&& 0x0F < 0x0A) := by decide

/-- The machine of the C6 witness: decimal mode, BCD-valid `A = $15`,
immediate ADC of the BCD byte `$27`, carry clear. -/
def mach6w : Machine :=
  { mach6 with
    cpu := { mach6.cpu with a := 0x15 }
    bus := { mach6.bus with memory := { data := fun _ => 0x27, size := 65536 } } }

theorem adc_bcd_closure_c6_witness :
    mach6w.cpu.flag_d = true ∧ mach6w.cpu.a = 0x15 ∧
    (bus_read_memory mach6w.bus mach6w.cpu.effective_addr).1 = 0x27 ∧
    ((op_adc mach6w).cpu.a &&& 0x0F < 0x0A ∧ (op_adc mach6w).cpu.a &&& 0xF0 < 0xA0) :=
  ⟨by decide, by decide, by decide,
    adc_bcd_closure_c6 mach6w (by decide) (by decide) (by decide) (by decide) (by decide)
      (by decide) (by decide)⟩

theorem tb254 : Nat.testBit 254 2 = true := by decide

theorem tb253 : Nat.testBit 253 2 = true := by decide

theorem tb4 : Nat.testBit 4 2 = true := by decide

theorem tb2 : Nat.testBit 2 2 = false := by decide

theorem tb1 : Nat.testBit 1 2 = false := by decide

/-- `acia_provide_input` never clears a set OVERRUN bit. -/
theorem acia_provide_input_overrun (l : List Nat) : ∀ a : Acia,
    a.status_reg.testBit 2 = true →
    (acia_provide_input a l).status_reg.testBit 2 = true := by
  induction l with
  | nil => intro a h; exact h
  | cons d rest ih =>
    intro a h
    unfold acia_provide_input
    dsimp only
    split_ifs
    · simp [Nat.testBit_lor, h]
    · exact ih _ (by simp [Nat.testBit_lor, h])

/-- The TX drain loop never clears a set OVERRUN bit. -/
theorem acia_process_tx_go_overrun (fuel : Nat) : ∀ a : Acia,
    a.status_reg.testBit 2 = true →
    (acia_process_tx_go fuel a).status_reg.testBit 2 = true := by
  induction fuel with
  | zero => intro a h; exact h
  | succ fuel ih =>
    intro a h
    unfold acia_process_tx_go
    dsimp only
    split_ifs
    · simp [Nat.testBit_lor, h]
    · exact ih _ (by simpa using h)
    · exact h

/-- C7 (amended): once the OVERRUN bit (bit 2) is set in the stored
status register it is sticky forever — no register write (control
writes included), register read, input delivery or TX drain clears it —
but it is never observable: a read of the status register recomputes
only TX_READY and RX_READY, so its OVERRUN bit is always clear. -/
theorem acia_overrun_sticky_c7 (a : Acia) (h : a.status_reg.testBit 2 = true) :
    (∀ address data, (acia_write a address data).status_reg.testBit 2 = true) ∧
    (∀ address, ((acia_read a address).2).status_reg.testBit 2 = true) ∧
    (∀ l, (acia_provide_input a l).status_reg.testBit 2 = true) ∧
    (acia_process_tx a).status_reg.testBit 2 = true ∧
    (∀ b : Acia, ((acia_read b 0xD000).1).testBit 2 = false) := by
  refine ⟨?_, ?_, ?_, ?_, ?_⟩
  · intro address data
    unfold acia_write
    dsimp only
    split_ifs <;>
      simp [Nat.testBit_lor, Nat.testBit_land, tb254, tb253, tb4, tb2, tb1, h,
        ACIA_STATUS_TX_READY, ACIA_STATUS_RX_READY, ACIA_STATUS_OVERRUN]
  · intro address
    unfold acia_read
    dsimp only
    split_ifs <;>
      simp [Nat.testBit_lor, Nat.testBit_land, tb254, tb253, tb4, tb2, tb1, h,
        ACIA_STATUS_TX_READY, ACIA_STATUS_RX_READY, ACIA_STATUS_OVERRUN]
  · intro l
    exact acia_provide_input_overrun l a h
  · unfold acia_process_tx
    split_ifs
    · exact h
    · exact acia_process_tx_go_overrun _ a h
  · intro b
    unfold acia_read
    norm_num [u16, ACIA_START_ADDRESS, ACIA_REG_STATUS]
    split_ifs <;> decide

/-- The ACIA state of the C7 counterexample: transmitter enabled, then
256 writes to `data_tx` — 255 fill the ring and the 256th sets
OVERRUN. -/
def acia_c7 : Acia :=
  (fun a => acia_write a 0xD001 0x41)^[256] (acia_write acia_init 0xD003 0x01)

set_option maxRecDepth 100000 in
/-- C7 counterexample: with OVERRUN set in the stored status register, a
read of the status register returns a byte whose OVERRUN bit is clear
(so the bit is not observable in subsequent status reads), and a write
to the control register leaves the stored OVERRUN bit set (so the
control write does not clear it). -/
theorem acia_overrun_c7_cex :
    acia_c7.status_reg.testBit 2 = true ∧
    ((acia_read acia_c7 0xD000).1).testBit 2 = false ∧
    (acia_write acia_c7 0xD003 0x01).status_reg.testBit 2 = true := by decide

set_option maxRecDepth 100000 in
theorem acia_overrun_sticky_c7_witness :
    acia_c7.status_reg.testBit 2 = true ∧
    (acia_provide_input acia_c7 [72, 105]).status_reg.testBit 2 = true :=
  ⟨by decide, (acia_overrun_sticky_c7 acia_c7 (by decide)).2.2.1 [72, 105]⟩

/-! ## C10: the ACIA ring-buffer invariants -/

/-- Abstraction function for a 256-cell ring buffer: the list of stored
bytes, read starting at `tail`. -/
def ring_list (buf : Nat → Nat) : Nat → Nat → List Nat
  | _, 0 => []
  | tail, n + 1 => buf (tail % 256) :: ring_list buf ((tail + 1) % 256) n

/-- Number of bytes held by a ring with the given head and tail. -/
def ring_occ (head tail : Nat) : Nat := (head + 256 - tail) % 256

/-- The bytes currently stored in the ACIA TX ring. -/
def acia_tx_contents (a : Acia) : List Nat :=
  ring_list a.tx_buffer a.tx_tail (ring_occ a.tx_head a.tx_tail)

/-- The bytes currently stored in the ACIA RX ring. -/
def acia_rx_contents (a : Acia) : List Nat :=
  ring_list a.rx_buffer a.rx_tail (ring_occ a.rx_head a.rx_tail)

theorem ring_list_succ (buf : Nat → Nat) (tail n : Nat) :
    ring_list buf tail (n + 1) = buf (tail % 256) :: ring_list buf ((tail + 1) % 256) n := rfl

theorem ring_list_length (buf : Nat → Nat) :
    ∀ (n tail : Nat), (ring_list buf tail n).length = n := by
  intro n
  induction n with
  | zero => intro tail; rfl
  | succ n ih => intro tail; simp [ring_list, ih]

theorem ring_list_update (buf : Nat → Nat) (v : Nat) :
    ∀ (n tail head : Nat), tail < 256 → n < 255 → head = (tail + n) % 256 →
    ring_list (Function.update buf head v) tail (n + 1) =
      ring_list buf tail n ++ [v] := by
  intro n
  induction n with
  | zero =>
    intro tail head h1 h2 h3
    have hht : tail % 256 = head := by omega
    simp only [ring_list, List.nil_append]
    rw [hht, Function.update_same]
  | succ n ih =>
    intro tail head h1 h2 h3
    have hne : tail % 256 ≠ head := by omega
    rw [ring_list_succ (Function.update buf head v) tail, ring_list_succ buf tail,
      List.cons_append, Function.update_noteq hne]
    rw [ih ((tail + 1) % 256) head (Nat.mod_lt _ (by norm_num)) (by omega) (by omega)]

theorem contents_enqueue (buf : Nat → Nat) (head tail v : Nat)
    (hh : head < 256) (ht : tail < 256) (hg : (head + 1) % 256 ≠ tail) :
    ring_list (Function.update buf head v) tail (ring_occ ((head + 1) % 256) tail) =
      ring_list buf tail (ring_occ head tail) ++ [v] := by
  have hocc : ring_occ ((head + 1) % 256) tail = ring_occ head tail + 1 := by
    unfold ring_occ; omega
  rw [hocc]
  exact ring_list_update buf v (ring_occ head tail) tail head ht
    (by unfold ring_occ; omega) (by unfold ring_occ; omega)

/-- `acia_provide_input` enqueues exactly the prefix of its input that
fits in the remaining RX-ring room (at most `255 - occupancy` bytes,
dropping the rest) and ends with OVERRUN set iff the input did not fit
entirely or OVERRUN was already set. -/
theorem provide_input_spec : ∀ (l : List Nat) (a : Acia),
    a.rx_head < 256 → a.rx_tail < 256 →
    acia_rx_contents (acia_provide_input a l) =
      acia_rx_contents a ++ (l.map u8).take (255 - (acia_rx_contents a).length) ∧
    ((acia_provide_input a l).status_reg.testBit 2 = true ↔
      255 - (acia_rx_contents a).length < l.length ∨ a.status_reg.testBit 2 = true) := by
  intro l
  induction l with
  | nil =>
    intro a h3 h4
    constructor
    · simp [acia_provide_input]
    · simp [acia_provide_input]
  | cons d rest ih =>
    intro a h3 h4
    have hlen : (acia_rx_contents a).length = ring_occ a.rx_head a.rx_tail := by
      unfold acia_rx_contents
      exact ring_list_length _ _ _
    unfold acia_provide_input
    dsimp only
    split_ifs with hfull
    · have hocc : ring_occ a.rx_head a.rx_tail = 255 := by
        unfold ring_occ at *
        unfold ACIA_RX_BUFFER_SIZE at hfull
        omega
      have hroom : 255 - (acia_rx_contents a).length = 0 := by omega
      constructor
      · show acia_rx_contents { a with status_reg := a.status_reg ||| ACIA_STATUS_OVERRUN } = _
        rw [hroom]
        simp [acia_rx_contents]
      · rw [hroom]
        simp [Nat.testBit_lor, ACIA_STATUS_OVERRUN, tb4]
    · have hocc : ring_occ a.rx_head a.rx_tail ≤ 254 := by
        unfold ring_occ at *
        unfold ACIA_RX_BUFFER_SIZE at hfull
        omega
      obtain ⟨ih1, ih2⟩ := ih { a with
          rx_buffer := Function.update a.rx_buffer a.rx_head (u8 d),
          rx_head := (a.rx_head + 1) % ACIA_RX_BUFFER_SIZE,
          rx_ready := true,
          status_reg := a.status_reg ||| ACIA_STATUS_RX_READY }
        (by show (a.rx_head + 1) % ACIA_RX_BUFFER_SIZE < 256
            unfold ACIA_RX_BUFFER_SIZE; omega)
        (by show a.rx_tail < 256; exact h4)
      rw [ih1, ih2]
      have henq : acia_rx_contents { a with
          rx_buffer := Function.update a.rx_buffer a.rx_head (u8 d),
          rx_head := (a.rx_head + 1) % ACIA_RX_BUFFER_SIZE,
          rx_ready := true,
          status_reg := a.status_reg ||| ACIA_STATUS_RX_READY } =
          acia_rx_contents a ++ [u8 d] := by
        show ring_list (Function.update a.rx_buffer a.rx_head (u8 d)) a.rx_tail
            (ring_occ ((a.rx_head + 1) % 256) a.rx_tail) =
          ring_list a.rx_buffer a.rx_tail (ring_occ a.rx_head a.rx_tail) ++ [u8 d]
        exact contents_enqueue a.rx_buffer a.rx_head a.rx_tail (u8 d) h3 h4
          (by unfold ACIA_RX_BUFFER_SIZE at hfull; exact hfull)
      rw [henq]
      have hlen2 : (acia_rx_contents a ++ [u8 d]).length = (acia_rx_contents a).length + 1 := by
        simp
      have hbit : ({ a with
          rx_buffer := Function.update a.rx_buffer a.rx_head (u8 d),
          rx_head := (a.rx_head + 1) % ACIA_RX_BUFFER_SIZE,
          rx_ready := true,
          status_reg := a.status_reg ||| ACIA_STATUS_RX_READY } : Acia).status_reg.testBit 2
          = a.status_reg.testBit 2 := by
        show (a.status_reg ||| ACIA_STATUS_RX_READY).testBit 2 = _
        simp [Nat.testBit_lor, ACIA_STATUS_RX_READY, tb2]
      rw [hbit, hlen2]
      constructor
      · have htake : (255 - (acia_rx_contents a).length) =
            (255 - ((acia_rx_contents a).length + 1)) + 1 := by omega
        rw [htake]
        simp [List.take_succ_cons]
      · have harith : (255 - ((acia_rx_contents a).length + 1) < rest.length) ↔
            (255 - (acia_rx_contents a).length < rest.length + 1) := by omega
        rw [harith]
        simp

/-- C10: each ACIA ring buffer (TX and RX, both of 256 cells) stores at
most 255 bytes; `head = tail` holds exactly when the ring is empty; a TX
data write (with TX enabled) whose enqueue would make head reach tail is
rejected — the state is unchanged except that OVERRUN is set — while an
accepted enqueue appends the byte and leaves the ring non-full-looking
(`head ≠ tail`); and `acia_provide_input` enqueues exactly the prefix of
its input that fits, drops the rest, and sets OVERRUN iff some byte did
not fit. -/
theorem acia_ring_c10 (a : Acia)
    (h1 : a.tx_head < 256) (h2 : a.tx_tail < 256)
    (h3 : a.rx_head < 256) (h4 : a.rx_tail < 256) :
    ((acia_tx_contents a).length ≤ 255 ∧ (acia_rx_contents a).length ≤ 255) ∧
    ((a.tx_head = a.tx_tail ↔ acia_tx_contents a = []) ∧
      (a.rx_head = a.rx_tail ↔ acia_rx_contents a = [])) ∧
    (∀ d, a.control_reg &&& ACIA_CONTROL_ENABLE_TX ≠ 0 →
      (a.tx_head + 1) % 256 = a.tx_tail →
      acia_write a 0xD001 d = { a with status_reg := a.status_reg ||| ACIA_STATUS_OVERRUN }) ∧
    (∀ d, a.control_reg &&& ACIA_CONTROL_ENABLE_TX ≠ 0 →
      (a.tx_head + 1) % 256 ≠ a.tx_tail →
      acia_tx_contents (acia_write a 0xD001 d) = acia_tx_contents a ++ [u8 d] ∧
      (acia_write a 0xD001 d).tx_head ≠ (acia_write a 0xD001 d).tx_tail) ∧
    (∀ l : List Nat,
      acia_rx_contents (acia_provide_input a l) =
        acia_rx_contents a ++ (l.map u8).take (255 - (acia_rx_contents a).length) ∧
      ((acia_provide_input a l).status_reg.testBit 2 = true ↔
        255 - (acia_rx_contents a).length < l.length ∨ a.status_reg.testBit 2 = true)) := by
  have hoff : u16 (u16 0xD001 + (65536 - ACIA_START_ADDRESS)) = 1 := by decide
  refine ⟨⟨?_, ?_⟩, ⟨?_, ?_⟩, ?_, ?_, fun l => provide_input_spec l a h3 h4⟩
  · rw [show (acia_tx_contents a).length = ring_occ a.tx_head a.tx_tail from
      ring_list_length _ _ _]
    unfold ring_occ; omega
  · rw [show (acia_rx_contents a).length = ring_occ a.rx_head a.rx_tail from
      ring_list_length _ _ _]
    unfold ring_occ; omega
  · constructor
    · intro h
      unfold acia_tx_contents
      have h0 : ring_occ a.tx_head a.tx_tail = 0 := by unfold ring_occ; omega
      rw [h0]
      rfl
    · intro h
      have h0 : ring_occ a.tx_head a.tx_tail = 0 := by
        have hl := congrArg List.length h
        rwa [show (acia_tx_contents a).length = ring_occ a.tx_head a.tx_tail from
          ring_list_length _ _ _, List.length_nil] at hl
      unfold ring_occ at h0; omega
  · constructor
    · intro h
      unfold acia_rx_contents
      have h0 : ring_occ a.rx_head a.rx_tail = 0 := by unfold ring_occ; omega
      rw [h0]
      rfl
    · intro h
      have h0 : ring_occ a.rx_head a.rx_tail = 0 := by
        have hl := congrArg List.length h
        rwa [show (acia_rx_contents a).length = ring_occ a.rx_head a.rx_tail from
          ring_list_length _ _ _, List.length_nil] at hl
      unfold ring_occ at h0; omega
  · intro d hen hg
    unfold acia_write
    dsimp only
    rw [hoff]
    rw [if_pos (show (1 : Nat) = ACIA_REG_DATA_TX from rfl)]
    rw [if_neg hen]
    rw [if_neg (not_not_intro (show (a.tx_head + 1) % ACIA_TX_BUFFER_SIZE = a.tx_tail from hg))]
  · intro d hen hg
    unfold acia_write
    dsimp only
    rw [hoff]
    rw [if_pos (show (1 : Nat) = ACIA_REG_DATA_TX from rfl)]
    rw [if_neg hen]
    rw [if_pos (show (a.tx_head + 1) % ACIA_TX_BUFFER_SIZE ≠ a.tx_tail from hg)]
    constructor
    · show ring_list (Function.update a.tx_buffer a.tx_head (u8 d)) a.tx_tail
          (ring_occ ((a.tx_head + 1) % 256) a.tx_tail) =
        ring_list a.tx_buffer a.tx_tail (ring_occ a.tx_head a.tx_tail) ++ [u8 d]
      exact contents_enqueue a.tx_buffer a.tx_head a.tx_tail (u8 d) h1 h2 hg
    · show (a.tx_head + 1) % ACIA_TX_BUFFER_SIZE ≠ a.tx_tail
      exact hg

theorem acia_ring_c10_witness :
    acia_rx_contents (acia_provide_input acia_init [72, 73]) = [72, 73] := by
  have h := (acia_ring_c10 acia_init (by decide) (by decide) (by decide)
    (by decide)).2.2.2.2 [72, 73]
  rw [h.1]
  rfl

/-! ## C8: the VIA shift register -/

set_option maxRecDepth 20000 in
/-- C8: writing `$48` to the VIA shift register sets `shift_count = 8`,
`shift_active`, clears `sr_tx_ready` and IFR bit 4; each of the next 8
`via_tick`s shifts the register left one bit and decrements the counter;
and the tick on which the counter reaches 0 clears `shift_active`, sets
`sr_tx_ready` and IFR bit 4, and emits to the output sink — but the byte
emitted is `$00` (the register after all 8 shifts), not the transmitted
byte `$48` the claim (and the comment in `via_tick_serial`) promises. -/
theorem via_shift_emit_c8 :
    (via_write via_init 0x600A 0x48).shift_reg = 0x48 ∧
    (via_write via_init 0x600A 0x48).shift_count = 8 ∧
    (via_write via_init 0x600A 0x48).shift_active = true ∧
    (via_write via_init 0x600A 0x48).sr_tx_ready = false ∧
    (via_write via_init 0x600A 0x48).ifr.testBit 4 = false ∧
    (∀ k : Fin 9,
      (via_tick^[(k : Nat)] (via_write via_init 0x600A 0x48)).shift_reg =
        u8 (0x48 <<< (k : Nat)) ∧
      (via_tick^[(k : Nat)] (via_write via_init 0x600A 0x48)).shift_count = 8 - (k : Nat)) ∧
    (via_tick^[8] (via_write via_init 0x600A 0x48)).shift_active = false ∧
    (via_tick^[8] (via_write via_init 0x600A 0x48)).sr_tx_ready = true ∧
    (via_tick^[8] (via_write via_init 0x600A 0x48)).ifr.testBit 4 = true ∧
    (via_tick^[8] (via_write via_init 0x600A 0x48)).out = [0x00] := by decide

end Sim65
